import Mathlib

/-!
Shallow embedding of the phantom-mask marketplace transactional engine.

The definitions below are translated from the repository's source:

* app/services/transaction_service.py — TransactionService.validate_transaction_item,
  TransactionService.create_single_transaction,
  TransactionService.create_multi_pharmacy_transaction,
  TransactionService.safe_query_with_lock;
* app/api/masks.py — update_stock, batch_manage_masks;
* app/models/{user,pharmacy,mask,transaction}.py — the table rows;
* app/schemas/domain/{transaction,mask}.py — the request shapes and their
  pydantic bounds (quantity gt=0, price gt=0, stock_quantity ge=0).

Modelling conventions:
* DECIMAL(10,2) / Float money columns and prices are modelled exactly as
  integer cent amounts (ℤ); quantities as ℤ.  Surrogate ids are ℕ.  The
  operations only add, subtract, compare and multiply money by integer
  quantities, so the cent scaling is exact.
* A database session is a DB value.  Each engine operation is a function from
  the pre-call DB to the post-call DB together with its HTTP-level outcome;
  SQLAlchemy rollback on an error path is modelled by the operation returning
  the unchanged pre-call DB next to the error.  This is the serialized
  (one-operation-at-a-time) semantics: row locks make concurrent operations
  on overlapping rows take effect in some serial order, and within one call
  the session's identity map returns the same row object to the validation
  read and to the later locked read.
* A store-level failure while committing (sqlalchemy OperationalError or any
  other SQLAlchemyError caught by the except blocks) is modelled by an
  explicit commitOutcome argument consulted at the commit point: none means
  the commit succeeds, some e means the store raised e and the except block
  runs (rollback + error classification).
* Timestamps (datetime.now()) are an opaque ℕ argument; created_at /
  updated_at bookkeeping columns and the free-form reason field of stock
  updates are not modelled, no claim mentions them.
* HTTPException(status, detail) is modelled by the ApiError inductive; each
  constructor corresponds to one raise site family and carries the data the
  detail string interpolates (Chinese message texts are not reproduced).
-/

namespace PhantomMask

/-- Row of the users table (app/models/user.py): id, name, cash_balance. -/
structure User where
  id : Nat
  name : String
  cash_balance : ℤ
deriving Repr, DecidableEq

/-- Row of the pharmacies table (app/models/pharmacy.py): id, name, cash_balance.
The opening_hours column is only read by the excluded query layer. -/
structure Pharmacy where
  id : Nat
  name : String
  cash_balance : ℤ
deriving Repr, DecidableEq

/-- Row of the masks table (app/models/mask.py): id, name, price,
stock_quantity, pharmacy_id. -/
structure Mask where
  id : Nat
  name : String
  price : ℤ
  stock_quantity : ℤ
  pharmacy_id : Nat
deriving Repr, DecidableEq

/-- Row of the transactions table (app/models/transaction.py).  The surrogate
id and the created_at/updated_at columns are not modelled. -/
structure Transaction where
  user_id : Nat
  pharmacy_id : Nat
  mask_id : Nat
  quantity : ℤ
  unit_price : ℤ
  total_amount : ℤ
  transaction_datetime : Nat
deriving Repr, DecidableEq

/-- The backing store reachable through the session: the four tables plus the
autoincrement counter the store uses for ids of newly inserted masks. -/
structure DB where
  users : List User
  pharmacies : List Pharmacy
  masks : List Mask
  transactions : List Transaction
  nextMaskId : Nat
deriving Repr, DecidableEq

/-- db.query(User).filter(User.id == uid).first() -/
def DB.findUser (db : DB) (uid : Nat) : Option User :=
  db.users.find? (fun u => u.id == uid)

/-- db.query(Pharmacy).filter(Pharmacy.id == pid).first() -/
def DB.findPharmacy (db : DB) (pid : Nat) : Option Pharmacy :=
  db.pharmacies.find? (fun p => p.id == pid)

/-- db.query(Mask).filter(Mask.id == mid).first() -/
def DB.findMask (db : DB) (mid : Nat) : Option Mask :=
  db.masks.find? (fun m => m.id == mid)

/-- db.query(Mask).filter(Mask.id == mid, Mask.pharmacy_id == pid).first() -/
def DB.findMaskOfPharmacy (db : DB) (mid pid : Nat) : Option Mask :=
  db.masks.find? (fun m => m.id == mid && m.pharmacy_id == pid)

/-- setattr on the user row with the given id (a flushed UPDATE at commit). -/
def DB.modifyUser (db : DB) (uid : Nat) (f : User → User) : DB :=
  { db with users := db.users.map (fun u => if u.id = uid then f u else u) }

/-- setattr on the pharmacy row with the given id. -/
def DB.modifyPharmacy (db : DB) (pid : Nat) (f : Pharmacy → Pharmacy) : DB :=
  { db with pharmacies := db.pharmacies.map (fun p => if p.id = pid then f p else p) }

/-- setattr on the mask row with the given id. -/
def DB.modifyMask (db : DB) (mid : Nat) (f : Mask → Mask) : DB :=
  { db with masks := db.masks.map (fun m => if m.id = mid then f m else m) }

/-- Well-formedness of the store as the schema guarantees it: primary keys
identify rows uniquely in each table, and every existing mask id is below
the autoincrement counter. -/
def DB.WF (db : DB) : Prop :=
  (∀ a ∈ db.users, ∀ b ∈ db.users, a.id = b.id → a = b) ∧
  (∀ a ∈ db.pharmacies, ∀ b ∈ db.pharmacies, a.id = b.id → a = b) ∧
  (∀ a ∈ db.masks, ∀ b ∈ db.masks, a.id = b.id → a = b) ∧
  (∀ m ∈ db.masks, m.id < db.nextMaskId)

instance (db : DB) : Decidable db.WF := by
  unfold DB.WF; infer_instance

/-- The non-negativity invariant of the data model: no stock quantity and no
cash balance is negative. -/
def DB.NonNegative (db : DB) : Prop :=
  (∀ m ∈ db.masks, 0 ≤ m.stock_quantity) ∧
  (∀ u ∈ db.users, 0 ≤ u.cash_balance) ∧
  (∀ p ∈ db.pharmacies, 0 ≤ p.cash_balance)

instance (db : DB) : Decidable db.NonNegative := by
  unfold DB.NonNegative; infer_instance

/-- Mask prices are non-negative (the schema bound is in fact price strict
positive; only non-negativity is needed by the invariant proofs). -/
def DB.PricesNonNeg (db : DB) : Prop :=
  ∀ m ∈ db.masks, 0 ≤ m.price

instance (db : DB) : Decidable db.PricesNonNeg := by
  unfold DB.PricesNonNeg; infer_instance

/-- A mask name occurs at most once within each pharmacy. -/
def DB.MaskNamesUniquePerPharmacy (db : DB) : Prop :=
  db.masks.Pairwise (fun a b => a.pharmacy_id = b.pharmacy_id → a.name ≠ b.name)

instance (db : DB) : Decidable db.MaskNamesUniquePerPharmacy := by
  unfold DB.MaskNamesUniquePerPharmacy; infer_instance

/-- The HTTPException raise sites of the engine, by kind.  Each constructor
carries the data interpolated into its detail message. -/
inductive ApiError where
  /-- validate_transaction_item: the user id resolves to no user (404). -/
  | userNotFound (uid : Nat)
  /-- validate_transaction_item and batch_manage_masks: the pharmacy id
  resolves to no pharmacy (404). -/
  | pharmacyNotFound (pid : Nat)
  /-- validate_transaction_item: no mask with this id belongs to this
  pharmacy (404). -/
  | maskNotFoundForPharmacy (pid mid : Nat)
  /-- stock or re-checked stock below the requested quantity (400). -/
  | insufficientStock (name : String) (current requested : ℤ)
  /-- user balance below the single-item total (400). -/
  | insufficientBalance (current needed : ℤ)
  /-- multi path: user balance below the aggregate total (400). -/
  | insufficientTotalBalance (current needed : ℤ)
  /-- single path lock step: one of the three re-queried rows is gone (404). -/
  | recordMissingAtLock
  /-- multi path lock step: the re-queried user row is gone (404). -/
  | userMissingAtLock
  /-- multi path lock step: the re-queried mask row is gone (404). -/
  | maskMissingAtLock (mid : Nat)
  /-- multi path: user_obj is None, i.e. the items list was empty (400). -/
  | userInfoUnavailable
  /-- update_stock: the mask id resolves to no mask (404). -/
  | maskNotFound (mid : Nat)
  /-- update_stock: the adjusted stock would be negative (400). -/
  | insufficientStockAdjust (current requestedDecrease : ℤ)
  /-- batch_manage_masks: duplicate names among the masks to create (409). -/
  | batchDuplicateNames
  /-- batch_manage_masks: a name to create already exists in the pharmacy (409). -/
  | batchExistingNames
  /-- a store failure whose text mentions a deadlock: retryable conflict (409). -/
  | conflict
  /-- any other store failure (500). -/
  | internalStoreError
deriving Repr, DecidableEq

/-- The HTTP status code each raise-site family uses. -/
def ApiError.status : ApiError → Nat
  | .userNotFound _ => 404
  | .pharmacyNotFound _ => 404
  | .maskNotFoundForPharmacy _ _ => 404
  | .insufficientStock _ _ _ => 400
  | .insufficientBalance _ _ => 400
  | .insufficientTotalBalance _ _ => 400
  | .recordMissingAtLock => 404
  | .userMissingAtLock => 404
  | .maskMissingAtLock _ => 404
  | .userInfoUnavailable => 400
  | .maskNotFound _ => 404
  | .insufficientStockAdjust _ _ => 400
  | .batchDuplicateNames => 409
  | .batchExistingNames => 409
  | .conflict => 409
  | .internalStoreError => 500

/-- A failure the backing store reports from inside the try block: either a
sqlalchemy OperationalError (carrying the driver's message text) or any other
SQLAlchemyError. -/
inductive StoreError where
  | operational (msg : String)
  | otherStoreFailure (msg : String)
deriving Repr, DecidableEq

/-- Prefix test on character lists. -/
def isPrefixChars : List Char → List Char → Bool
  | [], _ => true
  | _ :: _, [] => false
  | a :: as, b :: bs => a == b && isPrefixChars as bs

/-- Occurrence test on character lists: the needle occurs somewhere in the
hay. -/
def containsChars (needle : List Char) : List Char → Bool
  | [] => needle.isEmpty
  | b :: bs => isPrefixChars needle (b :: bs) || containsChars needle bs

/-- Python's substring test (needle in hay) on strings. -/
def containsSubstring (needle hay : String) : Bool :=
  containsChars needle.data hay.data

/-- Python's str.lower(), character by character. -/
def lowerString (s : String) : String :=
  ⟨s.data.map Char.toLower⟩

/-- Conflict classification as the except blocks of create_single_transaction,
create_multi_pharmacy_transaction, update_stock and batch_manage_masks all
perform it: an OperationalError whose lowercased text contains the word
deadlock becomes a 409 conflict; every other store failure becomes a 500
internal error. -/
def classify_store_error : StoreError → ApiError
  | .operational msg =>
      if containsSubstring ("deadlock") (lowerString msg) then .conflict
      else .internalStoreError
  | .otherStoreFailure _ => .internalStoreError

/-- Request body of POST /transactions (app/schemas/domain/transaction.py,
TransactionCreate). -/
structure TransactionCreate where
  user_id : Nat
  pharmacy_id : Nat
  mask_id : Nat
  quantity : ℤ
deriving Repr, DecidableEq

/-- The pydantic bound on TransactionCreate: quantity is gt=0. -/
def TransactionCreate.WF (r : TransactionCreate) : Prop := 0 < r.quantity

/-- TransactionService.validate_transaction_item: resolve the user, the
pharmacy and the mask owned by that pharmacy, check stock sufficiency, compute
the total, check balance sufficiency; the first failing check raises. -/
def validate_transaction_item (db : DB) (user_id pharmacy_id mask_id : Nat)
    (quantity : ℤ) : Except ApiError (User × Pharmacy × Mask × ℤ) :=
  match db.findUser user_id with
  | none => .error (.userNotFound user_id)
  | some user =>
    match db.findPharmacy pharmacy_id with
    | none => .error (.pharmacyNotFound pharmacy_id)
    | some pharmacy =>
      match db.findMaskOfPharmacy mask_id pharmacy_id with
      | none => .error (.maskNotFoundForPharmacy pharmacy_id mask_id)
      | some mask =>
        if mask.stock_quantity < quantity then
          .error (.insufficientStock mask.name mask.stock_quantity quantity)
        else
          let total_amount := mask.price * quantity
          if user.cash_balance < total_amount then
            .error (.insufficientBalance user.cash_balance total_amount)
          else
            .ok (user, pharmacy, mask, total_amount)

/-- The validation stage as the callers run it against the session: it issues
only SELECT queries (no setattr, no add, no commit), so the session state it
hands back is the state it received. -/
def validation_stage (user_id pharmacy_id mask_id : Nat) (quantity : ℤ)
    (db : DB) : DB × Except ApiError (User × Pharmacy × Mask × ℤ) :=
  (db, validate_transaction_item db user_id pharmacy_id mask_id quantity)

/-- TransactionService.create_single_transaction.  Step 1 validates; step 2
re-queries the three rows with locks (the session identity map returns the
same rows in the serialized semantics); step 3 re-checks stock and balance
against the locked rows; step 4 builds the Transaction row, applies the three
mutations and commits.  Any HTTPException leaves the store untouched; a store
failure at commit is rolled back and classified. -/
def create_single_transaction (db : DB) (r : TransactionCreate)
    (commitOutcome : Option StoreError) (now : Nat) :
    DB × Except ApiError Transaction :=
  match validate_transaction_item db r.user_id r.pharmacy_id r.mask_id r.quantity with
  | .error e => (db, .error e)
  | .ok _ =>
    match db.findUser r.user_id, db.findMask r.mask_id, db.findPharmacy r.pharmacy_id with
    | some user_locked, some mask_locked, some pharmacy_locked =>
      if mask_locked.stock_quantity < r.quantity then
        (db, .error (.insufficientStock mask_locked.name mask_locked.stock_quantity r.quantity))
      else
        let final_total := mask_locked.price * r.quantity
        if user_locked.cash_balance < final_total then
          (db, .error (.insufficientBalance user_locked.cash_balance final_total))
        else
          let t : Transaction :=
            { user_id := r.user_id, pharmacy_id := r.pharmacy_id,
              mask_id := r.mask_id, quantity := r.quantity,
              unit_price := mask_locked.price, total_amount := final_total,
              transaction_datetime := now }
          let db1 := db.modifyMask r.mask_id
            (fun m => { m with stock_quantity := mask_locked.stock_quantity - r.quantity })
          let db2 := db1.modifyUser r.user_id
            (fun u => { u with cash_balance := user_locked.cash_balance - final_total })
          let db3 := db2.modifyPharmacy r.pharmacy_id
            (fun p => { p with cash_balance := pharmacy_locked.cash_balance + final_total })
          let db4 := { db3 with transactions := db3.transactions ++ [t] }
          match commitOutcome with
          | some se => (db, .error (classify_store_error se))
          | none => (db4, .ok t)
    | _, _, _ => (db, .error .recordMissingAtLock)

/-- One line item of a multi-pharmacy purchase
(app/schemas/domain/transaction.py, MultiPharmacyTransactionItem). -/
structure MultiPharmacyTransactionItem where
  pharmacy_id : Nat
  mask_id : Nat
  quantity : ℤ
deriving Repr, DecidableEq

/-- Request body of POST /transactions/multi-pharmacy
(MultiPharmacyTransactionCreate). -/
structure MultiPharmacyTransactionCreate where
  user_id : Nat
  items : List MultiPharmacyTransactionItem
deriving Repr, DecidableEq

/-- The pydantic bounds on MultiPharmacyTransactionCreate: every item quantity
is gt=0 and the items list has min_length=1. -/
def MultiPharmacyTransactionCreate.WF (r : MultiPharmacyTransactionCreate) : Prop :=
  (∀ it ∈ r.items, 0 < it.quantity) ∧ r.items ≠ []

/-- Response body of a successful multi-pharmacy purchase
(MultiPharmacyTransactionResponse). -/
structure MultiPharmacyTransactionResponse where
  user_id : Nat
  total_amount : ℤ
  total_items : Nat
  transactions : List Transaction
  success_count : Nat
  failed_items : List String
deriving Repr, DecidableEq

instance {ε α : Type} [DecidableEq ε] [DecidableEq α] : DecidableEq (Except ε α)
  | .ok a, .ok b =>
      decidable_of_iff (a = b) ⟨fun h => by rw [h], fun h => by cases h; rfl⟩
  | .ok _, .error _ => .isFalse (by intro h; cases h)
  | .error _, .ok _ => .isFalse (by intro h; cases h)
  | .error a, .error b =>
      decidable_of_iff (a = b) ⟨fun h => by rw [h], fun h => by cases h; rfl⟩

/-- One safe_query_with_lock call: a SELECT ... FOR UPDATE on one row of one
table, identified by table and primary key. -/
inductive LockKey where
  | userLock (uid : Nat)
  | maskLock (mid : Nat)
  | pharmacyLock (pid : Nat)
deriving Repr, DecidableEq

/-- Result of one multi-pharmacy purchase call: the store state after the call,
the HTTP-level outcome, and the sequence of safe_query_with_lock calls the run
issued, in order. -/
structure MultiOutcome where
  post : DB
  result : Except ApiError MultiPharmacyTransactionResponse
  locks : List LockKey
deriving Repr, DecidableEq

/-- Phase 1 of create_multi_pharmacy_transaction: run
validate_transaction_item on every item against the unlocked snapshot,
collecting (item, item_total) pairs; the first failure cancels the whole
order.  The first component is user_obj, the User row the first item's
validation returned (None exactly when the items list is empty). -/
def validateAllItems (db : DB) (uid : Nat) :
    List MultiPharmacyTransactionItem →
    Except ApiError (Option User × List (MultiPharmacyTransactionItem × ℤ))
  | [] => .ok (none, [])
  | it :: rest =>
    match validate_transaction_item db uid it.pharmacy_id it.mask_id it.quantity with
    | .error e => .error e
    | .ok (user, _, _, itemTotal) =>
      match validateAllItems db uid rest with
      | .error e => .error e
      | .ok (_, vrest) => .ok (some user, (it, itemTotal) :: vrest)

/-- The Transaction row the phase-3 loop builds for one item: the quantity and
the phase-1 item total from the request, the unit price from the re-queried
mask row. -/
def itemRecord (uid now : Nat) (it : MultiPharmacyTransactionItem) (itemTotal : ℤ)
    (mask_locked : Mask) : Transaction :=
  { user_id := uid, pharmacy_id := it.pharmacy_id, mask_id := it.mask_id,
    quantity := it.quantity, unit_price := mask_locked.price,
    total_amount := itemTotal, transaction_datetime := now }

/-- The store mutations one loop iteration stages: write the re-checked stock,
credit the owning pharmacy by the phase-1 item total, insert the row. -/
def applyMultiItem (db : DB) (uid now : Nat) (it : MultiPharmacyTransactionItem)
    (itemTotal : ℤ) (mask_locked : Mask) : DB :=
  let db1 := db.modifyMask it.mask_id
    (fun m => { m with stock_quantity := mask_locked.stock_quantity - it.quantity })
  let db2 := db1.modifyPharmacy it.pharmacy_id
    (fun p => { p with cash_balance := p.cash_balance + itemTotal })
  { db2 with transactions := db2.transactions ++ [itemRecord uid now it itemTotal mask_locked] }

/-- Phase 3 loop of create_multi_pharmacy_transaction: for each validated
item, re-query the mask with a lock, re-check its stock, build the
Transaction row, decrement the stock and credit the owning pharmacy (the
pharmacy row is read and written without ever being locked).  Returns the
lock trace of the loop and, on success, the mutated store and the rows added. -/
def multiLoop (db : DB) (uid now : Nat) :
    List (MultiPharmacyTransactionItem × ℤ) →
    List LockKey × Except ApiError (DB × List Transaction)
  | [] => ([], .ok (db, []))
  | (it, itemTotal) :: rest =>
    match db.findMask it.mask_id with
    | none => ([.maskLock it.mask_id], .error (.maskMissingAtLock it.mask_id))
    | some mask_locked =>
      if mask_locked.stock_quantity < it.quantity then
        ([.maskLock it.mask_id],
         .error (.insufficientStock mask_locked.name mask_locked.stock_quantity it.quantity))
      else
        match multiLoop (applyMultiItem db uid now it itemTotal mask_locked) uid now rest with
        | (locks, .error e) => (.maskLock it.mask_id :: locks, .error e)
        | (locks, .ok (dbEnd, ts)) =>
          (.maskLock it.mask_id :: locks,
           .ok (dbEnd, itemRecord uid now it itemTotal mask_locked :: ts))

/-- TransactionService.create_multi_pharmacy_transaction.  Phase 1 validates
every item against the unlocked snapshot and sums the totals; phase 2 checks
the aggregate balance on user_obj; phase 3 re-queries the user with a lock,
re-checks the aggregate balance, runs the item loop, debits the user once by
the aggregate total and commits.  Any HTTPException rolls the session back
(post-state = pre-state); a store failure at commit is rolled back and
classified. -/
def create_multi_pharmacy_transaction (db : DB)
    (r : MultiPharmacyTransactionCreate) (commitOutcome : Option StoreError)
    (now : Nat) : MultiOutcome :=
  match validateAllItems db r.user_id r.items with
  | .error e => { post := db, result := .error e, locks := [] }
  | .ok (userObj, vitems) =>
    let total_amount := (vitems.map Prod.snd).sum
    match userObj with
    | none => { post := db, result := .error .userInfoUnavailable, locks := [] }
    | some user_obj =>
      if user_obj.cash_balance < total_amount then
        { post := db,
          result := .error (.insufficientTotalBalance user_obj.cash_balance total_amount),
          locks := [] }
      else
        match db.findUser r.user_id with
        | none =>
          { post := db, result := .error .userMissingAtLock,
            locks := [.userLock r.user_id] }
        | some user_locked =>
          if user_locked.cash_balance < total_amount then
            { post := db,
              result := .error (.insufficientTotalBalance user_locked.cash_balance total_amount),
              locks := [.userLock r.user_id] }
          else
            match multiLoop db r.user_id now vitems with
            | (locks, .error e) =>
              { post := db, result := .error e, locks := .userLock r.user_id :: locks }
            | (locks, .ok (db3, ts)) =>
              let db4 := db3.modifyUser r.user_id
                (fun u => { u with cash_balance := user_locked.cash_balance - total_amount })
              match commitOutcome with
              | some se =>
                { post := db, result := .error (classify_store_error se),
                  locks := .userLock r.user_id :: locks }
              | none =>
                { post := db4,
                  result := .ok
                    { user_id := r.user_id, total_amount := total_amount,
                      total_items := r.items.length, transactions := ts,
                      success_count := ts.length, failed_items := [] },
                  locks := .userLock r.user_id :: locks }

/-- Request body of PATCH /masks/id/stock (StockUpdateRequest); the free-form
reason field is not modelled. -/
structure StockUpdateRequest where
  quantity_change : ℤ
deriving Repr, DecidableEq

/-- Response body of a successful stock update (StockUpdateResponse without
its timestamp and reason echo). -/
structure StockUpdateResponse where
  mask_id : Nat
  mask_name : String
  old_quantity : ℤ
  quantity_change : ℤ
  new_quantity : ℤ
deriving Repr, DecidableEq

/-- update_stock of app/api/masks.py: look the mask up under a lock, reject an
adjustment that would drive the stock negative, otherwise write the new
quantity and commit. -/
def update_stock (db : DB) (mask_id : Nat) (r : StockUpdateRequest)
    (commitOutcome : Option StoreError) : DB × Except ApiError StockUpdateResponse :=
  match db.findMask mask_id with
  | none => (db, .error (.maskNotFound mask_id))
  | some mask =>
    let old_quantity := mask.stock_quantity
    let new_quantity := old_quantity + r.quantity_change
    if new_quantity < 0 then
      (db, .error (.insufficientStockAdjust old_quantity |r.quantity_change|))
    else
      let db1 := db.modifyMask mask_id
        (fun m => { m with stock_quantity := new_quantity })
      match commitOutcome with
      | some se => (db, .error (classify_store_error se))
      | none =>
        (db1, .ok { mask_id := mask_id, mask_name := mask.name,
                    old_quantity := old_quantity,
                    quantity_change := r.quantity_change,
                    new_quantity := new_quantity })

/-- One item of a batch mask request (BatchMaskItem). -/
structure BatchMaskItem where
  name : String
  price : ℤ
  stock_quantity : ℤ
  mask_id : Option Nat
deriving Repr, DecidableEq

/-- Python truthiness of item.mask_id: an item is treated as a create when
mask_id is absent or zero (if not item.mask_id). -/
def BatchMaskItem.isCreate (it : BatchMaskItem) : Bool :=
  match it.mask_id with
  | none => true
  | some mid => mid == 0

/-- Request body of POST /masks/batch (BatchMaskRequest). -/
structure BatchMaskRequest where
  pharmacy_id : Nat
  masks : List BatchMaskItem
deriving Repr, DecidableEq

/-- Response body of batch_manage_masks (BatchMaskResponse; the echoed mask
row lists are represented by their counts). -/
structure BatchMaskResponse where
  pharmacy_id : Nat
  pharmacy_name : String
  total_items : Nat
  created_count : Nat
  updated_count : Nat
  failed_items : List String
deriving Repr, DecidableEq

/-- Stands for the detail string of a skipped batch update item (mask id does
not exist or does not belong to the given pharmacy). -/
def mask_update_target_missing (mid : Nat) : String :=
  "mask id " ++ toString mid ++ " does not exist or does not belong to the pharmacy"

/-- The mask row a create item inserts: the next autoincrement id, the
request's fields, the request's pharmacy. -/
def newMaskOf (db : DB) (pid : Nat) (item : BatchMaskItem) : Mask :=
  { id := db.nextMaskId, name := item.name, price := item.price,
    stock_quantity := item.stock_quantity, pharmacy_id := pid }

/-- The store after inserting a created mask row. -/
def createApply (db : DB) (pid : Nat) (item : BatchMaskItem) : DB :=
  { db with masks := db.masks ++ [newMaskOf db pid item],
            nextMaskId := db.nextMaskId + 1 }

/-- The store after rewriting an update item's target row in place. -/
def updateApply (db : DB) (mid : Nat) (item : BatchMaskItem) : DB :=
  db.modifyMask mid
    (fun m => { m with name := item.name, price := item.price,
                       stock_quantity := item.stock_quantity })

/-- The item loop of batch_manage_masks: an update item whose (id, pharmacy)
lookup fails is skipped and reported; a found update item is rewritten in
place; a create item is inserted with the next autoincrement id.  Returns the
mutated store, the created and updated counts, and the failure messages, in
item order. -/
def batchLoop (pid : Nat) (db : DB) :
    List BatchMaskItem → DB × Nat × Nat × List String
  | [] => (db, 0, 0, [])
  | item :: rest =>
    if item.isCreate then
      let (db2, c, u, f) := batchLoop pid (createApply db pid item) rest
      (db2, c + 1, u, f)
    else
      match item.mask_id with
      | none =>
        -- unreachable: isCreate is false, so mask_id is some nonzero id
        let (db1, c, u, f) := batchLoop pid db rest
        (db1, c, u, f)
      | some mid =>
        match db.findMaskOfPharmacy mid pid with
        | none =>
          let (db1, c, u, f) := batchLoop pid db rest
          (db1, c, u, mask_update_target_missing mid :: f)
        | some _ =>
          let (db2, c, u, f) := batchLoop pid (updateApply db mid item) rest
          (db2, c, u + 1, f)

/-- The names of the mask rows a batch request would create. -/
def createNamesOf (r : BatchMaskRequest) : List String :=
  (r.masks.filter (fun it => it.isCreate)).map (fun it => it.name)

/-- batch_manage_masks of app/api/masks.py: resolve the pharmacy, reject the
request when the names of the items to create collide among themselves or
with a name already present in the pharmacy, then run the item loop and
commit; update items never get any name check. -/
def batch_manage_masks (db : DB) (r : BatchMaskRequest)
    (commitOutcome : Option StoreError) : DB × Except ApiError BatchMaskResponse :=
  match db.findPharmacy r.pharmacy_id with
  | none => (db, .error (.pharmacyNotFound r.pharmacy_id))
  | some pharmacy =>
    let names_to_create_list := createNamesOf r
    if names_to_create_list.dedup.length != names_to_create_list.length then
      (db, .error .batchDuplicateNames)
    else
      let names_to_create_set := names_to_create_list.dedup
      if db.masks.any (fun m => m.pharmacy_id == r.pharmacy_id
          && names_to_create_set.contains m.name) then
        (db, .error .batchExistingNames)
      else
        let (db1, c, u, f) := batchLoop r.pharmacy_id db r.masks
        match commitOutcome with
        | some se => (db, .error (classify_store_error se))
        | none =>
          (db1, .ok { pharmacy_id := r.pharmacy_id, pharmacy_name := pharmacy.name,
                      total_items := r.masks.length, created_count := c,
                      updated_count := u, failed_items := f })

/-! Basic facts about the lookup and update helpers. -/

theorem find?_map_pred_preserved {α : Type} (l : List α) (g : α → α) (p : α → Bool)
    (h : ∀ a, p (g a) = p a) : (l.map g).find? p = (l.find? p).map g := by
  rw [List.find?_map]
  have hp : p ∘ g = p := funext h
  rw [hp]

theorem findUser_some_id (db : DB) (uid : Nat) (u : User)
    (h : db.findUser uid = some u) : u.id = uid := by
  unfold DB.findUser at h
  simpa using List.find?_some h

theorem findUser_some_mem (db : DB) (uid : Nat) (u : User)
    (h : db.findUser uid = some u) : u ∈ db.users :=
  List.mem_of_find?_eq_some h

theorem findPharmacy_some_id (db : DB) (pid : Nat) (p : Pharmacy)
    (h : db.findPharmacy pid = some p) : p.id = pid := by
  unfold DB.findPharmacy at h
  simpa using List.find?_some h

theorem findPharmacy_some_mem (db : DB) (pid : Nat) (p : Pharmacy)
    (h : db.findPharmacy pid = some p) : p ∈ db.pharmacies :=
  List.mem_of_find?_eq_some h

theorem findMask_some_id (db : DB) (mid : Nat) (m : Mask)
    (h : db.findMask mid = some m) : m.id = mid := by
  unfold DB.findMask at h
  simpa using List.find?_some h

theorem findMask_some_mem (db : DB) (mid : Nat) (m : Mask)
    (h : db.findMask mid = some m) : m ∈ db.masks :=
  List.mem_of_find?_eq_some h

theorem findMaskOfPharmacy_some (db : DB) (mid pid : Nat) (m : Mask)
    (h : db.findMaskOfPharmacy mid pid = some m) :
    m ∈ db.masks ∧ m.id = mid ∧ m.pharmacy_id = pid := by
  refine ⟨List.mem_of_find?_eq_some h, ?_⟩
  unfold DB.findMaskOfPharmacy at h
  have := List.find?_some h
  simp only [Bool.and_eq_true, beq_iff_eq] at this
  exact this

/-- Under primary-key uniqueness, the mask found by (id, pharmacy) is the mask
found by id alone. -/
theorem findMask_of_findMaskOfPharmacy (db : DB) (hwf : db.WF) (mid pid : Nat)
    (m : Mask) (h : db.findMaskOfPharmacy mid pid = some m) :
    db.findMask mid = some m := by
  obtain ⟨hm, hid, _⟩ := findMaskOfPharmacy_some db mid pid m h
  have hsome : (db.masks.find? (fun a => a.id == mid)).isSome := by
    rw [List.find?_isSome]
    exact ⟨m, hm, by simp [hid]⟩
  obtain ⟨m2, h2⟩ := Option.isSome_iff_exists.mp hsome
  have hm2 : m2 ∈ db.masks := List.mem_of_find?_eq_some h2
  have hid2 : m2.id = mid := by simpa using List.find?_some h2
  have heq : m2 = m := hwf.2.2.1 m2 hm2 m hm (by rw [hid2, hid])
  unfold DB.findMask
  rw [h2, heq]

theorem findUser_modifyUser (db : DB) (uid : Nat) (f : User → User)
    (hf : ∀ u, (f u).id = u.id) (uid2 : Nat) :
    (db.modifyUser uid f).findUser uid2 =
      (db.findUser uid2).map (fun u => if u.id = uid then f u else u) := by
  unfold DB.modifyUser DB.findUser
  apply find?_map_pred_preserved
  intro a
  by_cases h : a.id = uid <;> simp [h, hf]

theorem findPharmacy_modifyPharmacy (db : DB) (pid : Nat) (f : Pharmacy → Pharmacy)
    (hf : ∀ p, (f p).id = p.id) (pid2 : Nat) :
    (db.modifyPharmacy pid f).findPharmacy pid2 =
      (db.findPharmacy pid2).map (fun p => if p.id = pid then f p else p) := by
  unfold DB.modifyPharmacy DB.findPharmacy
  apply find?_map_pred_preserved
  intro a
  by_cases h : a.id = pid <;> simp [h, hf]

theorem findMask_modifyMask (db : DB) (mid : Nat) (f : Mask → Mask)
    (hf : ∀ m, (f m).id = m.id) (mid2 : Nat) :
    (db.modifyMask mid f).findMask mid2 =
      (db.findMask mid2).map (fun m => if m.id = mid then f m else m) := by
  unfold DB.modifyMask DB.findMask
  apply find?_map_pred_preserved
  intro a
  by_cases h : a.id = mid <;> simp [h, hf]

/-- A stock write whose new value was computed from the found row acts, on the
rows the lookups see, like a decrement of the row's own value. -/
theorem findMask_stockWrite (db : DB) (mid : Nat) (m0 : Mask) (q : ℤ)
    (h : db.findMask mid = some m0) (mid2 : Nat) :
    (db.modifyMask mid
        (fun m => { m with stock_quantity := m0.stock_quantity - q })).findMask mid2 =
      (db.findMask mid2).map
        (fun m => if m.id = mid then { m with stock_quantity := m.stock_quantity - q } else m) := by
  rw [findMask_modifyMask db mid
        (fun m => { m with stock_quantity := m0.stock_quantity - q }) (fun m => rfl) mid2]
  cases h2 : db.findMask mid2 with
  | none => rfl
  | some m =>
    simp only [Option.map_some']
    by_cases hid : m.id = mid
    · have hmid : mid2 = mid := by rw [← findMask_some_id db mid2 m h2, hid]
      subst hmid
      rw [h2] at h
      cases h
      simp [hid]
    · simp [hid]

/-- A user balance write whose new value was computed from the found row. -/
theorem findUser_balanceWrite (db : DB) (uid : Nat) (u0 : User) (amt : ℤ)
    (h : db.findUser uid = some u0) (uid2 : Nat) :
    (db.modifyUser uid
        (fun u => { u with cash_balance := u0.cash_balance - amt })).findUser uid2 =
      (db.findUser uid2).map
        (fun u => if u.id = uid then { u with cash_balance := u.cash_balance - amt } else u) := by
  rw [findUser_modifyUser db uid
        (fun u => { u with cash_balance := u0.cash_balance - amt }) (fun u => rfl) uid2]
  cases h2 : db.findUser uid2 with
  | none => rfl
  | some u =>
    simp only [Option.map_some']
    by_cases hid : u.id = uid
    · have huid : uid2 = uid := by rw [← findUser_some_id db uid2 u h2, hid]
      subst huid
      rw [h2] at h
      cases h
      simp [hid]
    · simp [hid]

/-- A pharmacy balance write whose new value was computed from the found row. -/
theorem findPharmacy_balanceWrite (db : DB) (pid : Nat) (p0 : Pharmacy) (amt : ℤ)
    (h : db.findPharmacy pid = some p0) (pid2 : Nat) :
    (db.modifyPharmacy pid
        (fun p => { p with cash_balance := p0.cash_balance + amt })).findPharmacy pid2 =
      (db.findPharmacy pid2).map
        (fun p => if p.id = pid then { p with cash_balance := p.cash_balance + amt } else p) := by
  rw [findPharmacy_modifyPharmacy db pid
        (fun p => { p with cash_balance := p0.cash_balance + amt }) (fun p => rfl) pid2]
  cases h2 : db.findPharmacy pid2 with
  | none => rfl
  | some p =>
    simp only [Option.map_some']
    by_cases hid : p.id = pid
    · have hpid : pid2 = pid := by rw [← findPharmacy_some_id db pid2 p h2, hid]
      subst hpid
      rw [h2] at h
      cases h
      simp [hid]
    · simp [hid]

/-! Characterizations of the validation stage and of the single-purchase path. -/

theorem validate_ok_iff (db : DB) (uid pid mid : Nat) (q : ℤ)
    (u : User) (p : Pharmacy) (m : Mask) (tot : ℤ) :
    validate_transaction_item db uid pid mid q = .ok (u, p, m, tot) ↔
      (db.findUser uid = some u ∧ db.findPharmacy pid = some p ∧
       db.findMaskOfPharmacy mid pid = some m ∧ ¬ m.stock_quantity < q ∧
       ¬ u.cash_balance < m.price * q ∧ tot = m.price * q) := by
  unfold validate_transaction_item
  cases hu : db.findUser uid with
  | none => simp
  | some u0 =>
    cases hp : db.findPharmacy pid with
    | none => simp
    | some p0 =>
      cases hm : db.findMaskOfPharmacy mid pid with
      | none => simp
      | some m0 =>
        by_cases hs : m0.stock_quantity < q
        · simp only [if_pos hs]
          constructor
          · intro h; cases h
          · rintro ⟨hu2, hp2, hm2, hs2, -, -⟩
            cases hu2; cases hp2; cases hm2
            exact absurd hs hs2
        · simp only [if_neg hs]
          by_cases hb : u0.cash_balance < m0.price * q
          · simp only [if_pos hb]
            constructor
            · intro h; cases h
            · rintro ⟨hu2, hp2, hm2, -, hb2, -⟩
              cases hu2; cases hp2; cases hm2
              exact absurd hb hb2
          · simp only [if_neg hb]
            constructor
            · intro h
              cases h
              exact ⟨rfl, rfl, rfl, hs, hb, rfl⟩
            · rintro ⟨hu2, hp2, hm2, -, -, ht⟩
              cases hu2; cases hp2; cases hm2
              rw [ht]

theorem create_single_post_or_ok (db : DB) (r : TransactionCreate)
    (o : Option StoreError) (now : Nat) :
    (create_single_transaction db r o now).1 = db ∨
      ∃ t, (create_single_transaction db r o now).2 = .ok t := by
  unfold create_single_transaction
  cases hv : validate_transaction_item db r.user_id r.pharmacy_id r.mask_id r.quantity with
  | error e => left; rfl
  | ok v =>
    cases hu : db.findUser r.user_id with
    | none => left; rfl
    | some user_locked =>
      cases hm : db.findMask r.mask_id with
      | none => left; rfl
      | some mask_locked =>
        cases hp : db.findPharmacy r.pharmacy_id with
        | none => left; rfl
        | some pharmacy_locked =>
          by_cases hs : mask_locked.stock_quantity < r.quantity
          · simp only [if_pos hs]; left; trivial
          · simp only [if_neg hs]
            by_cases hb : user_locked.cash_balance < mask_locked.price * r.quantity
            · simp only [if_pos hb]; left; trivial
            · simp only [if_neg hb]
              cases o with
              | some se => left; rfl
              | none => right; exact ⟨_, rfl⟩

theorem create_single_ok (db : DB) (r : TransactionCreate) (o : Option StoreError)
    (now : Nat) (db2 : DB) (t : Transaction)
    (h : create_single_transaction db r o now = (db2, .ok t)) :
    o = none ∧
    ∃ user_locked mask_locked pharmacy_locked,
      db.findUser r.user_id = some user_locked ∧
      db.findMask r.mask_id = some mask_locked ∧
      db.findPharmacy r.pharmacy_id = some pharmacy_locked ∧
      ¬ mask_locked.stock_quantity < r.quantity ∧
      ¬ user_locked.cash_balance < mask_locked.price * r.quantity ∧
      t = { user_id := r.user_id, pharmacy_id := r.pharmacy_id, mask_id := r.mask_id,
            quantity := r.quantity, unit_price := mask_locked.price,
            total_amount := mask_locked.price * r.quantity,
            transaction_datetime := now } ∧
      db2.transactions = db.transactions ++ [t] ∧
      (∀ mid2, db2.findMask mid2 = (db.findMask mid2).map
          (fun m => if m.id = r.mask_id
            then { m with stock_quantity := m.stock_quantity - r.quantity } else m)) ∧
      (∀ uid2, db2.findUser uid2 = (db.findUser uid2).map
          (fun u => if u.id = r.user_id
            then { u with cash_balance :=
                     u.cash_balance - mask_locked.price * r.quantity } else u)) ∧
      (∀ pid2, db2.findPharmacy pid2 = (db.findPharmacy pid2).map
          (fun p => if p.id = r.pharmacy_id
            then { p with cash_balance :=
                     p.cash_balance + mask_locked.price * r.quantity } else p)) ∧
      db2.masks = db.masks.map
        (fun m => if m.id = r.mask_id
          then { m with stock_quantity := mask_locked.stock_quantity - r.quantity } else m) ∧
      db2.users = db.users.map
        (fun u => if u.id = r.user_id
          then { u with cash_balance :=
                   user_locked.cash_balance - mask_locked.price * r.quantity } else u) ∧
      db2.pharmacies = db.pharmacies.map
        (fun p => if p.id = r.pharmacy_id
          then { p with cash_balance :=
                   pharmacy_locked.cash_balance + mask_locked.price * r.quantity } else p) ∧
      db2.nextMaskId = db.nextMaskId := by
  unfold create_single_transaction at h
  cases hv : validate_transaction_item db r.user_id r.pharmacy_id r.mask_id r.quantity with
  | error e => rw [hv] at h; cases h
  | ok v =>
    rw [hv] at h
    dsimp only at h
    cases hu : db.findUser r.user_id with
    | none => rw [hu] at h; cases h
    | some user_locked =>
      rw [hu] at h
      cases hm : db.findMask r.mask_id with
      | none => rw [hm] at h; cases h
      | some mask_locked =>
        rw [hm] at h
        cases hp : db.findPharmacy r.pharmacy_id with
        | none => rw [hp] at h; cases h
        | some pharmacy_locked =>
          rw [hp] at h
          dsimp only at h
          by_cases hs : mask_locked.stock_quantity < r.quantity
          · rw [if_pos hs] at h; cases h
          · rw [if_neg hs] at h
            by_cases hb : user_locked.cash_balance < mask_locked.price * r.quantity
            · rw [if_pos hb] at h; cases h
            · rw [if_neg hb] at h
              cases o with
              | some se => cases h
              | none =>
                cases h
                refine ⟨rfl, user_locked, mask_locked, pharmacy_locked,
                  rfl, rfl, rfl, hs, hb, rfl, rfl, ?_, ?_, ?_, rfl, rfl, rfl, rfl⟩
                · intro mid2
                  exact findMask_stockWrite db r.mask_id mask_locked r.quantity hm mid2
                · intro uid2
                  exact findUser_balanceWrite _ r.user_id user_locked
                    (mask_locked.price * r.quantity) hu uid2
                · intro pid2
                  exact findPharmacy_balanceWrite _ r.pharmacy_id pharmacy_locked
                    (mask_locked.price * r.quantity) hp pid2

/-! Characterization of the multi-pharmacy purchase path. -/

/-- Total quantity the validated items request from one mask id. -/
def sumQtyFor (vitems : List (MultiPharmacyTransactionItem × ℤ)) (mid : Nat) : ℤ :=
  ((vitems.filter (fun v => v.1.mask_id == mid)).map (fun v => v.1.quantity)).sum

/-- Total money the validated items credit to one pharmacy id. -/
def sumCreditFor (vitems : List (MultiPharmacyTransactionItem × ℤ)) (pid : Nat) : ℤ :=
  ((vitems.filter (fun v => v.1.pharmacy_id == pid)).map Prod.snd).sum

theorem sumQtyFor_nil (mid : Nat) : sumQtyFor [] mid = 0 := rfl

theorem sumCreditFor_nil (pid : Nat) : sumCreditFor [] pid = 0 := rfl

theorem sumQtyFor_cons (v : MultiPharmacyTransactionItem × ℤ)
    (vs : List (MultiPharmacyTransactionItem × ℤ)) (mid : Nat) :
    sumQtyFor (v :: vs) mid =
      (if v.1.mask_id = mid then v.1.quantity else 0) + sumQtyFor vs mid := by
  unfold sumQtyFor
  by_cases h : v.1.mask_id = mid <;> simp [List.filter_cons, h]

theorem sumCreditFor_cons (v : MultiPharmacyTransactionItem × ℤ)
    (vs : List (MultiPharmacyTransactionItem × ℤ)) (pid : Nat) :
    sumCreditFor (v :: vs) pid =
      (if v.1.pharmacy_id = pid then v.2 else 0) + sumCreditFor vs pid := by
  unfold sumCreditFor
  by_cases h : v.1.pharmacy_id = pid <;> simp [List.filter_cons, h]

/-- The Transaction row the phase-3 loop inserts for one validated item when
run against the store state db. -/
def recordOf (db : DB) (uid now : Nat) (v : MultiPharmacyTransactionItem × ℤ) :
    Transaction :=
  { user_id := uid, pharmacy_id := v.1.pharmacy_id, mask_id := v.1.mask_id,
    quantity := v.1.quantity,
    unit_price := ((db.findMask v.1.mask_id).map Mask.price).getD 0,
    total_amount := v.2, transaction_datetime := now }

/-- The phase-3 loop only ever rewrites stock quantities and pharmacy
balances, so mask prices survive it; this is the price projection of one
stock write. -/
theorem priceProj_stockWrite (db : DB) (mid : Nat) (m0 : Mask) (q : ℤ)
    (h : db.findMask mid = some m0) (mid2 : Nat) :
    ((db.modifyMask mid
        (fun m => { m with stock_quantity := m0.stock_quantity - q })).findMask mid2).map
        Mask.price = (db.findMask mid2).map Mask.price := by
  rw [findMask_stockWrite db mid m0 q h mid2]
  cases db.findMask mid2 with
  | none => rfl
  | some m => by_cases hid : m.id = mid <;> simp [hid]

theorem applyMultiItem_users (db : DB) (uid now : Nat)
    (it : MultiPharmacyTransactionItem) (tot : ℤ) (mask_locked : Mask) :
    (applyMultiItem db uid now it tot mask_locked).users = db.users := rfl

theorem applyMultiItem_nextMaskId (db : DB) (uid now : Nat)
    (it : MultiPharmacyTransactionItem) (tot : ℤ) (mask_locked : Mask) :
    (applyMultiItem db uid now it tot mask_locked).nextMaskId = db.nextMaskId := rfl

theorem applyMultiItem_transactions (db : DB) (uid now : Nat)
    (it : MultiPharmacyTransactionItem) (tot : ℤ) (mask_locked : Mask) :
    (applyMultiItem db uid now it tot mask_locked).transactions =
      db.transactions ++ [itemRecord uid now it tot mask_locked] := rfl

theorem applyMultiItem_findMask (db : DB) (uid now : Nat)
    (it : MultiPharmacyTransactionItem) (tot : ℤ) (mask_locked : Mask)
    (h : db.findMask it.mask_id = some mask_locked) (mid : Nat) :
    (applyMultiItem db uid now it tot mask_locked).findMask mid =
      (db.findMask mid).map
        (fun m => if m.id = it.mask_id
          then { m with stock_quantity := m.stock_quantity - it.quantity } else m) :=
  findMask_stockWrite db it.mask_id mask_locked it.quantity h mid

theorem applyMultiItem_findPharmacy (db : DB) (uid now : Nat)
    (it : MultiPharmacyTransactionItem) (tot : ℤ) (mask_locked : Mask) (pid : Nat) :
    (applyMultiItem db uid now it tot mask_locked).findPharmacy pid =
      (db.findPharmacy pid).map
        (fun p => if p.id = it.pharmacy_id
          then { p with cash_balance := p.cash_balance + tot } else p) :=
  findPharmacy_modifyPharmacy _ it.pharmacy_id
    (fun p => { p with cash_balance := p.cash_balance + tot }) (fun _ => rfl) pid

theorem applyMultiItem_priceProj (db : DB) (uid now : Nat)
    (it : MultiPharmacyTransactionItem) (tot : ℤ) (mask_locked : Mask)
    (h : db.findMask it.mask_id = some mask_locked) (mid : Nat) :
    ((applyMultiItem db uid now it tot mask_locked).findMask mid).map Mask.price =
      (db.findMask mid).map Mask.price := by
  rw [applyMultiItem_findMask db uid now it tot mask_locked h mid]
  cases db.findMask mid with
  | none => rfl
  | some m => by_cases hid : m.id = it.mask_id <;> simp [hid]

theorem applyMultiItem_recordOf (db : DB) (uid now : Nat)
    (it : MultiPharmacyTransactionItem) (tot : ℤ) (mask_locked : Mask)
    (h : db.findMask it.mask_id = some mask_locked)
    (w : MultiPharmacyTransactionItem × ℤ) :
    recordOf (applyMultiItem db uid now it tot mask_locked) uid now w =
      recordOf db uid now w := by
  unfold recordOf
  have hp := applyMultiItem_priceProj db uid now it tot mask_locked h w.1.mask_id
  congr 1
  exact congrArg (fun z => Option.getD z 0) hp

theorem multiLoop_ok (uid now : Nat) :
    ∀ (vitems : List (MultiPharmacyTransactionItem × ℤ)) (db : DB)
      (locks : List LockKey) (db2 : DB) (ts : List Transaction),
      multiLoop db uid now vitems = (locks, .ok (db2, ts)) →
      locks = vitems.map (fun v => LockKey.maskLock v.1.mask_id) ∧
      db2.users = db.users ∧
      db2.nextMaskId = db.nextMaskId ∧
      db2.transactions = db.transactions ++ ts ∧
      ts = vitems.map (recordOf db uid now) ∧
      (∀ mid, db2.findMask mid = (db.findMask mid).map
          (fun m => { m with stock_quantity := m.stock_quantity - sumQtyFor vitems mid })) ∧
      (∀ pid, db2.findPharmacy pid = (db.findPharmacy pid).map
          (fun p => { p with cash_balance := p.cash_balance + sumCreditFor vitems pid })) := by
  intro vitems
  induction vitems with
  | nil =>
    intro db locks db2 ts h
    unfold multiLoop at h
    cases h
    refine ⟨rfl, rfl, rfl, by simp, rfl, ?_, ?_⟩
    · intro mid
      cases hf : db.findMask mid <;> simp [sumQtyFor_nil]
    · intro pid
      cases hf : db.findPharmacy pid <;> simp [sumCreditFor_nil]
  | cons v rest ih =>
    intro db locks db2 ts h
    obtain ⟨it, tot⟩ := v
    unfold multiLoop at h
    cases hfind : db.findMask it.mask_id with
    | none => rw [hfind] at h; cases h
    | some mask_locked =>
      rw [hfind] at h
      dsimp only at h
      by_cases hs : mask_locked.stock_quantity < it.quantity
      · rw [if_pos hs] at h; cases h
      · rw [if_neg hs] at h
        cases hrec : multiLoop (applyMultiItem db uid now it tot mask_locked)
            uid now rest with
        | mk locks1 res1 =>
          rw [hrec] at h
          cases res1 with
          | error e => cases h
          | ok pair2 =>
            obtain ⟨dbEnd, ts1⟩ := pair2
            cases h
            obtain ⟨hlocks, husers, hnext, htx, hts, hstock, hcredit⟩ :=
              ih _ _ _ _ hrec
            refine ⟨by rw [hlocks]; rfl, ?_, ?_, ?_, ?_, ?_, ?_⟩
            · rw [husers, applyMultiItem_users]
            · rw [hnext, applyMultiItem_nextMaskId]
            · rw [htx, applyMultiItem_transactions]
              simp
            · rw [hts]
              have hhead : itemRecord uid now it tot mask_locked =
                  recordOf db uid now (it, tot) := by
                unfold itemRecord recordOf
                rw [hfind]
                rfl
              have hfun : recordOf (applyMultiItem db uid now it tot mask_locked) uid now =
                  recordOf db uid now :=
                funext (applyMultiItem_recordOf db uid now it tot mask_locked hfind)
              rw [hhead, hfun]
              rfl
            · intro mid
              rw [hstock mid,
                applyMultiItem_findMask db uid now it tot mask_locked hfind mid,
                Option.map_map]
              cases hf2 : db.findMask mid with
              | none => rfl
              | some m =>
                have hid : m.id = mid := findMask_some_id db mid m hf2
                simp only [Option.map_some', Function.comp]
                by_cases hcase : m.id = it.mask_id
                · have heq2 : it.mask_id = mid := by rw [← hcase, hid]
                  simp [hcase, sumQtyFor_cons, heq2, sub_sub]
                · have hne : ¬ it.mask_id = mid := by
                    intro hcon; exact hcase (by rw [hid, ← hcon])
                  simp [hcase, sumQtyFor_cons, hne]
            · intro pid
              rw [hcredit pid,
                applyMultiItem_findPharmacy db uid now it tot mask_locked pid,
                Option.map_map]
              cases hf2 : db.findPharmacy pid with
              | none => rfl
              | some p =>
                have hid : p.id = pid := findPharmacy_some_id db pid p hf2
                simp only [Option.map_some', Function.comp]
                by_cases hcase : p.id = it.pharmacy_id
                · have heq2 : it.pharmacy_id = pid := by rw [← hcase, hid]
                  simp [hcase, sumCreditFor_cons, heq2, add_assoc]
                · have hne : ¬ it.pharmacy_id = pid := by
                    intro hcon; exact hcase (by rw [hid, ← hcon])
                  simp [hcase, sumCreditFor_cons, hne]

theorem validateAllItems_ok (db : DB) (uid : Nat) :
    ∀ (items : List MultiPharmacyTransactionItem) (uo : Option User)
      (vitems : List (MultiPharmacyTransactionItem × ℤ)),
      validateAllItems db uid items = .ok (uo, vitems) →
      vitems.map Prod.fst = items ∧
      (∀ v ∈ vitems, ∃ m, db.findMaskOfPharmacy v.1.mask_id v.1.pharmacy_id = some m ∧
          v.2 = m.price * v.1.quantity ∧ ¬ m.stock_quantity < v.1.quantity) ∧
      (items = [] → uo = none ∧ vitems = []) ∧
      (items ≠ [] → ∃ u, db.findUser uid = some u ∧ uo = some u) := by
  intro items
  induction items with
  | nil =>
    intro uo vitems h
    unfold validateAllItems at h
    cases h
    refine ⟨rfl, ?_, ?_, ?_⟩
    · intro v hv
      cases hv
    · intro _
      exact ⟨rfl, rfl⟩
    · intro hne
      exact absurd rfl hne
  | cons it rest ih =>
    intro uo vitems h
    unfold validateAllItems at h
    cases hv : validate_transaction_item db uid it.pharmacy_id it.mask_id it.quantity with
    | error e => rw [hv] at h; cases h
    | ok quad =>
      rw [hv] at h
      obtain ⟨user, pharmacy, mask, itemTotal⟩ := quad
      dsimp only at h
      cases hrec : validateAllItems db uid rest with
      | error e => rw [hrec] at h; cases h
      | ok pair =>
        rw [hrec] at h
        obtain ⟨uo1, vrest⟩ := pair
        dsimp only at h
        cases h
        obtain ⟨hfst, hvals, -, -⟩ := ih uo1 vrest hrec
        obtain ⟨hu, hp, hm, hs, hb, ht⟩ :=
          (validate_ok_iff db uid it.pharmacy_id it.mask_id it.quantity
            user pharmacy mask itemTotal).mp hv
        refine ⟨by rw [List.map_cons, hfst], ?_, ?_, ?_⟩
        · intro v hv2
          cases hv2 with
          | head => exact ⟨mask, hm, ht, hs⟩
          | tail _ hmem => exact hvals v hmem
        · intro hcon; cases hcon
        · intro _
          exact ⟨user, hu, rfl⟩

theorem create_multi_post_or_ok (db : DB) (r : MultiPharmacyTransactionCreate)
    (o : Option StoreError) (now : Nat) :
    (create_multi_pharmacy_transaction db r o now).post = db ∨
      ∃ resp, (create_multi_pharmacy_transaction db r o now).result = .ok resp := by
  unfold create_multi_pharmacy_transaction
  cases hva : validateAllItems db r.user_id r.items with
  | error e => left; rfl
  | ok pair =>
    obtain ⟨uo, vitems⟩ := pair
    cases uo with
    | none => left; rfl
    | some user_obj =>
      dsimp only
      by_cases h2 : user_obj.cash_balance < (vitems.map Prod.snd).sum
      · rw [if_pos h2]; left; rfl
      · rw [if_neg h2]
        cases hu : db.findUser r.user_id with
        | none => left; rfl
        | some user_locked =>
          dsimp only
          by_cases h3 : user_locked.cash_balance < (vitems.map Prod.snd).sum
          · rw [if_pos h3]; left; rfl
          · rw [if_neg h3]
            cases hloop : multiLoop db r.user_id now vitems with
            | mk locks1 res1 =>
              cases res1 with
              | error e => left; rfl
              | ok pair2 =>
                obtain ⟨db3, ts⟩ := pair2
                cases o with
                | some se => left; rfl
                | none => right; exact ⟨_, rfl⟩

theorem create_multi_ok (db : DB) (r : MultiPharmacyTransactionCreate)
    (o : Option StoreError) (now : Nat) (resp : MultiPharmacyTransactionResponse)
    (h : (create_multi_pharmacy_transaction db r o now).result = .ok resp) :
    o = none ∧
    ∃ user_obj vitems user_locked db3 locks,
      validateAllItems db r.user_id r.items = .ok (some user_obj, vitems) ∧
      db.findUser r.user_id = some user_locked ∧
      ¬ user_locked.cash_balance < (vitems.map Prod.snd).sum ∧
      multiLoop db r.user_id now vitems = (locks, .ok (db3, resp.transactions)) ∧
      resp.user_id = r.user_id ∧
      resp.total_amount = (vitems.map Prod.snd).sum ∧
      resp.total_items = r.items.length ∧
      resp.success_count = resp.transactions.length ∧
      resp.failed_items = [] ∧
      (create_multi_pharmacy_transaction db r o now).post =
        db3.modifyUser r.user_id
          (fun u => { u with cash_balance :=
              user_locked.cash_balance - (vitems.map Prod.snd).sum }) ∧
      (create_multi_pharmacy_transaction db r o now).locks =
        .userLock r.user_id :: locks := by
  unfold create_multi_pharmacy_transaction at h ⊢
  cases hva : validateAllItems db r.user_id r.items with
  | error e => rw [hva] at h; dsimp only at h; cases h
  | ok pair =>
    rw [hva] at h
    obtain ⟨uo, vitems⟩ := pair
    cases uo with
    | none => dsimp only at h; cases h
    | some user_obj =>
      dsimp only at h ⊢
      by_cases h2 : user_obj.cash_balance < (vitems.map Prod.snd).sum
      · rw [if_pos h2] at h; dsimp only at h; cases h
      · rw [if_neg h2] at h ⊢
        cases hu : db.findUser r.user_id with
        | none => rw [hu] at h; dsimp only at h; cases h
        | some user_locked =>
          rw [hu] at h
          dsimp only at h ⊢
          by_cases h3 : user_locked.cash_balance < (vitems.map Prod.snd).sum
          · rw [if_pos h3] at h; dsimp only at h; cases h
          · rw [if_neg h3] at h ⊢
            cases hloop : multiLoop db r.user_id now vitems with
            | mk locks1 res1 =>
              rw [hloop] at h
              cases res1 with
              | error e => dsimp only at h; cases h
              | ok pair2 =>
                obtain ⟨db3, ts⟩ := pair2
                dsimp only at h ⊢
                cases o with
                | some se => dsimp only at h; cases h
                | none =>
                  dsimp only at h
                  cases h
                  exact ⟨rfl, user_obj, vitems, user_locked, db3, locks1,
                    rfl, rfl, h3, hloop, rfl, rfl, rfl, rfl, rfl, rfl, rfl⟩

/-! Invariant machinery for sequences of engine operations. -/

theorem update_stock_post_or_ok (db : DB) (mask_id : Nat) (r : StockUpdateRequest)
    (o : Option StoreError) :
    (update_stock db mask_id r o).1 = db ∨
      ∃ resp, (update_stock db mask_id r o).2 = .ok resp := by
  unfold update_stock
  cases hf : db.findMask mask_id with
  | none => left; rfl
  | some mask =>
    dsimp only
    by_cases hneg : mask.stock_quantity + r.quantity_change < 0
    · rw [if_pos hneg]; left; rfl
    · rw [if_neg hneg]
      cases o with
      | some se => left; rfl
      | none => right; exact ⟨_, rfl⟩

theorem update_stock_ok (db : DB) (mask_id : Nat) (r : StockUpdateRequest)
    (o : Option StoreError) (db2 : DB) (resp : StockUpdateResponse)
    (h : update_stock db mask_id r o = (db2, .ok resp)) :
    o = none ∧
    ∃ mask, db.findMask mask_id = some mask ∧
      ¬ mask.stock_quantity + r.quantity_change < 0 ∧
      resp = { mask_id := mask_id, mask_name := mask.name,
               old_quantity := mask.stock_quantity,
               quantity_change := r.quantity_change,
               new_quantity := mask.stock_quantity + r.quantity_change } ∧
      db2 = db.modifyMask mask_id
        (fun m => { m with stock_quantity := mask.stock_quantity + r.quantity_change }) := by
  unfold update_stock at h
  cases hf : db.findMask mask_id with
  | none => rw [hf] at h; cases h
  | some mask =>
    rw [hf] at h
    dsimp only at h
    by_cases hneg : mask.stock_quantity + r.quantity_change < 0
    · rw [if_pos hneg] at h; cases h
    · rw [if_neg hneg] at h
      cases o with
      | some se => cases h
      | none =>
        cases h
        exact ⟨rfl, mask, rfl, hneg, rfl, rfl⟩

/-- One externally invokable mutating operation of the engine: a single-item
purchase, a multi-pharmacy purchase, or a stock adjustment. -/
inductive EngineOp where
  | purchaseSingle (r : TransactionCreate) (o : Option StoreError) (now : Nat)
  | purchaseMulti (r : MultiPharmacyTransactionCreate) (o : Option StoreError) (now : Nat)
  | stockAdjust (mask_id : Nat) (r : StockUpdateRequest) (o : Option StoreError)

/-- The pydantic bounds the HTTP layer enforces on the operation's request
body before the engine runs. -/
def EngineOp.WF : EngineOp → Prop
  | .purchaseSingle r _ _ => r.WF
  | .purchaseMulti r _ _ => r.WF
  | .stockAdjust _ _ _ => True

/-- The store state the operation leaves behind (the rolled-back pre-state
when it failed). -/
def applyOp (db : DB) : EngineOp → DB
  | .purchaseSingle r o now => (create_single_transaction db r o now).1
  | .purchaseMulti r o now => (create_multi_pharmacy_transaction db r o now).post
  | .stockAdjust mask_id r o => (update_stock db mask_id r o).1

/-- The store state after a sequence of engine operations. -/
def applyOps (db : DB) (ops : List EngineOp) : DB := ops.foldl applyOp db

theorem multiLoop_preserves_inv (uid now : Nat) :
    ∀ (vitems : List (MultiPharmacyTransactionItem × ℤ)) (db : DB)
      (locks : List LockKey) (db2 : DB) (ts : List Transaction),
      multiLoop db uid now vitems = (locks, .ok (db2, ts)) →
      (∀ v ∈ vitems, 0 ≤ v.2) →
      db.NonNegative → db.PricesNonNeg →
      db2.NonNegative ∧ db2.PricesNonNeg := by
  intro vitems
  induction vitems with
  | nil =>
    intro db locks db2 ts h htot hnn hpr
    unfold multiLoop at h
    cases h
    exact ⟨hnn, hpr⟩
  | cons v rest ih =>
    intro db locks db2 ts h htot hnn hpr
    obtain ⟨it, tot⟩ := v
    unfold multiLoop at h
    cases hfind : db.findMask it.mask_id with
    | none => rw [hfind] at h; cases h
    | some mask_locked =>
      rw [hfind] at h
      dsimp only at h
      by_cases hs : mask_locked.stock_quantity < it.quantity
      · rw [if_pos hs] at h; cases h
      · rw [if_neg hs] at h
        cases hrec : multiLoop (applyMultiItem db uid now it tot mask_locked)
            uid now rest with
        | mk locks1 res1 =>
          rw [hrec] at h
          cases res1 with
          | error e => cases h
          | ok pair2 =>
            obtain ⟨dbEnd, ts1⟩ := pair2
            cases h
            have hnn2 : (applyMultiItem db uid now it tot mask_locked).NonNegative := by
              obtain ⟨hm2, hu2, hp2⟩ := hnn
              refine ⟨?_, hu2, ?_⟩
              · intro m2 hm3
                obtain ⟨m, hm, hmm⟩ := List.mem_map.mp hm3
                by_cases hid : m.id = it.mask_id
                · rw [← hmm]
                  simp only [if_pos hid]
                  omega
                · rw [← hmm]
                  simp only [if_neg hid]
                  exact hm2 m hm
              · intro p2 hp3
                obtain ⟨p, hp, hpp⟩ := List.mem_map.mp hp3
                by_cases hid : p.id = it.pharmacy_id
                · rw [← hpp]
                  simp only [if_pos hid]
                  have h0 : (0 : ℤ) ≤ tot := htot (it, tot) (by simp)
                  have h1 := hp2 p hp
                  linarith
                · rw [← hpp]
                  simp only [if_neg hid]
                  exact hp2 p hp
            have hpr2 : (applyMultiItem db uid now it tot mask_locked).PricesNonNeg := by
              intro m2 hm3
              obtain ⟨m, hm, hmm⟩ := List.mem_map.mp hm3
              by_cases hid : m.id = it.mask_id
              · rw [← hmm]; simp only [if_pos hid]; exact hpr m hm
              · rw [← hmm]; simp only [if_neg hid]; exact hpr m hm
            exact ih _ _ _ _ hrec (fun w hw => htot w (List.mem_cons_of_mem _ hw)) hnn2 hpr2

theorem applyOp_preserves_inv (db : DB) (op : EngineOp) (hwf : op.WF)
    (hnn : db.NonNegative) (hpr : db.PricesNonNeg) :
    (applyOp db op).NonNegative ∧ (applyOp db op).PricesNonNeg := by
  cases op with
  | purchaseSingle r o now =>
    dsimp only [applyOp]
    cases create_single_post_or_ok db r o now with
    | inl hpost => rw [hpost]; exact ⟨hnn, hpr⟩
    | inr hok =>
      obtain ⟨t, ht⟩ := hok
      have hpair : create_single_transaction db r o now =
          ((create_single_transaction db r o now).1, .ok t) := by
        rw [← ht]
      obtain ⟨-, user_locked, mask_locked, pharmacy_locked, hu, hm, hp, hs, hb,
        -, -, -, -, -, hmasks, husers, hpharms, -⟩ :=
        create_single_ok db r o now _ t hpair
      have hq : (0 : ℤ) ≤ r.quantity := le_of_lt hwf
      have hprice : (0 : ℤ) ≤ mask_locked.price :=
        hpr mask_locked (findMask_some_mem db r.mask_id mask_locked hm)
      have htotnn : (0 : ℤ) ≤ mask_locked.price * r.quantity :=
        mul_nonneg hprice hq
      obtain ⟨hm2, hu2, hp2⟩ := hnn
      constructor
      · refine ⟨?_, ?_, ?_⟩
        · rw [hmasks]
          intro m2 hmem
          obtain ⟨m, hm3, hmm⟩ := List.mem_map.mp hmem
          by_cases hid : m.id = r.mask_id
          · rw [← hmm]; simp only [if_pos hid]; omega
          · rw [← hmm]; simp only [if_neg hid]; exact hm2 m hm3
        · rw [husers]
          intro u2 hmem
          obtain ⟨u, hu3, huu⟩ := List.mem_map.mp hmem
          by_cases hid : u.id = r.user_id
          · rw [← huu]; simp only [if_pos hid]
            have := not_lt.mp hb
            linarith
          · rw [← huu]; simp only [if_neg hid]; exact hu2 u hu3
        · rw [hpharms]
          intro p2 hmem
          obtain ⟨p, hp3, hpp⟩ := List.mem_map.mp hmem
          by_cases hid : p.id = r.pharmacy_id
          · rw [← hpp]; simp only [if_pos hid]
            have := hp2 pharmacy_locked
              (findPharmacy_some_mem db r.pharmacy_id pharmacy_locked hp)
            linarith
          · rw [← hpp]; simp only [if_neg hid]; exact hp2 p hp3
      · intro m2 hmem
        rw [hmasks] at hmem
        obtain ⟨m, hm3, hmm⟩ := List.mem_map.mp hmem
        by_cases hid : m.id = r.mask_id
        · rw [← hmm]; simp only [if_pos hid]; exact hpr m hm3
        · rw [← hmm]; simp only [if_neg hid]; exact hpr m hm3
  | purchaseMulti r o now =>
    dsimp only [applyOp]
    cases create_multi_post_or_ok db r o now with
    | inl hpost => rw [hpost]; exact ⟨hnn, hpr⟩
    | inr hok =>
      obtain ⟨resp, hres⟩ := hok
      obtain ⟨-, user_obj, vitems, user_locked, db3, locks1, hva, hu, h3, hloop,
        -, -, -, -, -, hpost, -⟩ := create_multi_ok db r o now resp hres
      rw [hpost]
      obtain ⟨hfst, hvals, -, -⟩ := validateAllItems_ok db r.user_id r.items _ _ hva
      have htot : ∀ v ∈ vitems, (0 : ℤ) ≤ v.2 := by
        intro v hv
        obtain ⟨m, hm, ht2, -⟩ := hvals v hv
        obtain ⟨hmem, -, -⟩ := findMaskOfPharmacy_some db _ _ m hm
        have hq : 0 < v.1.quantity := by
          have hv1 : v.1 ∈ r.items := by
            rw [← hfst]
            exact List.mem_map_of_mem Prod.fst hv
          exact hwf.1 v.1 hv1
        have hqc : (0 : ℤ) ≤ v.1.quantity := le_of_lt hq
        rw [ht2]
        exact mul_nonneg (hpr m hmem) hqc
      obtain ⟨hnn3, hpr3⟩ :=
        multiLoop_preserves_inv r.user_id now vitems db _ _ _ hloop htot hnn hpr
      obtain ⟨hm3, hu3, hp3⟩ := hnn3
      constructor
      · refine ⟨hm3, ?_, hp3⟩
        intro u2 hmem
        obtain ⟨u, hu4, huu⟩ := List.mem_map.mp hmem
        by_cases hid : u.id = r.user_id
        · rw [← huu]; simp only [if_pos hid]
          have := not_lt.mp h3
          linarith
        · rw [← huu]; simp only [if_neg hid]; exact hu3 u hu4
      · exact hpr3
  | stockAdjust mask_id r o =>
    dsimp only [applyOp]
    cases update_stock_post_or_ok db mask_id r o with
    | inl hpost => rw [hpost]; exact ⟨hnn, hpr⟩
    | inr hok =>
      obtain ⟨resp, hres⟩ := hok
      have hpair : update_stock db mask_id r o =
          ((update_stock db mask_id r o).1, .ok resp) := by
        rw [← hres]
      obtain ⟨-, mask, hf, hneg, -, hdb2⟩ := update_stock_ok db mask_id r o _ resp hpair
      rw [hdb2]
      obtain ⟨hm2, hu2, hp2⟩ := hnn
      constructor
      · refine ⟨?_, hu2, hp2⟩
        intro m2 hmem
        obtain ⟨m, hm3, hmm⟩ := List.mem_map.mp hmem
        by_cases hid : m.id = mask_id
        · rw [← hmm]; simp only [if_pos hid]; omega
        · rw [← hmm]; simp only [if_neg hid]; exact hm2 m hm3
      · intro m2 hmem
        obtain ⟨m, hm3, hmm⟩ := List.mem_map.mp hmem
        by_cases hid : m.id = mask_id
        · rw [← hmm]; simp only [if_pos hid]; exact hpr m hm3
        · rw [← hmm]; simp only [if_neg hid]; exact hpr m hm3

theorem applyOps_preserves_inv :
    ∀ (ops : List EngineOp) (db : DB), (∀ op ∈ ops, op.WF) →
      db.NonNegative → db.PricesNonNeg →
      (applyOps db ops).NonNegative ∧ (applyOps db ops).PricesNonNeg := by
  intro ops
  induction ops with
  | nil => intro db _ hnn hpr; exact ⟨hnn, hpr⟩
  | cons op rest ih =>
    intro db hops hnn hpr
    obtain ⟨hnn2, hpr2⟩ :=
      applyOp_preserves_inv db op (hops op (List.mem_cons_self op rest)) hnn hpr
    exact ih (applyOp db op) (fun o ho => hops o (List.mem_cons_of_mem op ho)) hnn2 hpr2

/-! Characterization of the batch product create/update path. -/

theorem findMaskOfPharmacy_modifyMask (db : DB) (target : Nat) (f : Mask → Mask)
    (hfid : ∀ m, (f m).id = m.id) (hfpid : ∀ m, (f m).pharmacy_id = m.pharmacy_id)
    (mid pid2 : Nat) :
    (db.modifyMask target f).findMaskOfPharmacy mid pid2 =
      (db.findMaskOfPharmacy mid pid2).map
        (fun m => if m.id = target then f m else m) := by
  unfold DB.modifyMask DB.findMaskOfPharmacy
  apply find?_map_pred_preserved
  intro a
  by_cases h : a.id = target <;> simp [h, hfid, hfpid]

theorem findMask_modifyMask_ne (db : DB) (target : Nat) (f : Mask → Mask)
    (hfid : ∀ m, (f m).id = m.id) (mid : Nat) (hne : mid ≠ target) :
    (db.modifyMask target f).findMask mid = db.findMask mid := by
  rw [findMask_modifyMask db target f hfid mid]
  cases hf : db.findMask mid with
  | none => rfl
  | some m =>
    have hid : m.id = mid := findMask_some_id db mid m hf
    simp [hid, hne]

theorem findMaskOfPharmacy_modifyMask_ne (db : DB) (target : Nat) (f : Mask → Mask)
    (hfid : ∀ m, (f m).id = m.id) (hfpid : ∀ m, (f m).pharmacy_id = m.pharmacy_id)
    (mid pid2 : Nat) (hne : mid ≠ target) :
    (db.modifyMask target f).findMaskOfPharmacy mid pid2 =
      db.findMaskOfPharmacy mid pid2 := by
  rw [findMaskOfPharmacy_modifyMask db target f hfid hfpid mid pid2]
  cases hf : db.findMaskOfPharmacy mid pid2 with
  | none => rfl
  | some m =>
    obtain ⟨-, hid, -⟩ := findMaskOfPharmacy_some db mid pid2 m hf
    simp [hid, hne]

theorem appendMask_findMask_old (db : DB) (newMask : Mask) (nid mid : Nat)
    (hne : ¬ newMask.id = mid) :
    ({ db with masks := db.masks ++ [newMask],
               nextMaskId := nid } : DB).findMask mid = db.findMask mid := by
  unfold DB.findMask
  dsimp only
  rw [List.find?_append]
  have hno : List.find? (fun m => m.id == mid) [newMask] = none := by
    simp [hne]
  rw [hno, Option.or_none]

theorem appendMask_findMaskOfPharmacy_old (db : DB) (newMask : Mask) (nid mid pid2 : Nat)
    (hne : ¬ newMask.id = mid) :
    ({ db with masks := db.masks ++ [newMask],
               nextMaskId := nid } : DB).findMaskOfPharmacy mid pid2 =
      db.findMaskOfPharmacy mid pid2 := by
  unfold DB.findMaskOfPharmacy
  dsimp only
  rw [List.find?_append]
  have hno : List.find? (fun m => m.id == mid && m.pharmacy_id == pid2) [newMask] = none := by
    simp [hne]
  rw [hno, Option.or_none]

theorem createApply_findMask_old (db : DB) (pid : Nat) (item : BatchMaskItem)
    (mid : Nat) (hne : ¬ db.nextMaskId = mid) :
    (createApply db pid item).findMask mid = db.findMask mid := by
  unfold createApply
  apply appendMask_findMask_old
  unfold newMaskOf
  dsimp only
  omega

theorem createApply_findMaskOfPharmacy_old (db : DB) (pid : Nat) (item : BatchMaskItem)
    (mid pid2 : Nat) (hne : ¬ db.nextMaskId = mid) :
    (createApply db pid item).findMaskOfPharmacy mid pid2 =
      db.findMaskOfPharmacy mid pid2 := by
  unfold createApply
  apply appendMask_findMaskOfPharmacy_old
  unfold newMaskOf
  dsimp only
  omega

theorem updateApply_findMaskOfPharmacy_isSome (db : DB) (mid : Nat)
    (item : BatchMaskItem) (mid2 pid2 : Nat) :
    ((updateApply db mid item).findMaskOfPharmacy mid2 pid2).isSome =
      (db.findMaskOfPharmacy mid2 pid2).isSome := by
  unfold updateApply
  rw [findMaskOfPharmacy_modifyMask db mid
      (fun m => { m with name := item.name, price := item.price,
                         stock_quantity := item.stock_quantity })
      (fun _ => rfl) (fun _ => rfl) mid2 pid2]
  cases db.findMaskOfPharmacy mid2 pid2 <;> rfl

/-- The failure message an update item earns against a fixed store snapshot:
present exactly when the item is an update whose (id, pharmacy) lookup fails. -/
def itemBadUpdate (db : DB) (pid : Nat) (it : BatchMaskItem) : Option String :=
  if it.isCreate then none
  else
    match it.mask_id with
    | some mid =>
      if (db.findMaskOfPharmacy mid pid).isSome then none
      else some (mask_update_target_missing mid)
    | none => none

/-- The failure list of a batch call, characterized against the pre-call
store. -/
def batchFailedOf (db : DB) (pid : Nat) (items : List BatchMaskItem) : List String :=
  items.filterMap (itemBadUpdate db pid)

/-- Number of create items in a batch request. -/
def createCountOf (items : List BatchMaskItem) : Nat :=
  (items.filter (fun it => it.isCreate)).length

/-- Number of update items whose target resolves against the pre-call store. -/
def updatedCountOf (db : DB) (pid : Nat) (items : List BatchMaskItem) : Nat :=
  (items.filter (fun it => !it.isCreate &&
    (match it.mask_id with
     | some mid => (db.findMaskOfPharmacy mid pid).isSome
     | none => false))).length

theorem createCountOf_cons_create (item : BatchMaskItem) (rest : List BatchMaskItem)
    (hc : item.isCreate = true) :
    createCountOf (item :: rest) = createCountOf rest + 1 := by
  unfold createCountOf
  rw [List.filter_cons, if_pos (by simp [hc])]
  rfl

theorem createCountOf_cons_noncreate (item : BatchMaskItem) (rest : List BatchMaskItem)
    (hcF : item.isCreate = false) :
    createCountOf (item :: rest) = createCountOf rest := by
  unfold createCountOf
  rw [List.filter_cons, if_neg (by simp [hcF])]

/-- All update items' request bounds: no targeted id collides with one of the
ids the autoincrement column will hand out to this call's create items. -/
def BatchIdsWF (db : DB) (items : List BatchMaskItem) : Prop :=
  ∀ it ∈ items, ∀ mid, it.mask_id = some mid → it.isCreate = false →
    mid < db.nextMaskId ∨ db.nextMaskId + createCountOf items ≤ mid

theorem batchIdsWF_tail_create (db : DB) (pid : Nat) (item : BatchMaskItem)
    (rest : List BatchMaskItem) (hc : item.isCreate = true)
    (hids : BatchIdsWF db (item :: rest)) :
    BatchIdsWF (createApply db pid item) rest := by
  intro it hit mid hmid hcr
  have h0 := hids it (List.mem_cons_of_mem item hit) mid hmid hcr
  rw [createCountOf_cons_create item rest hc] at h0
  have hn1 : (createApply db pid item).nextMaskId = db.nextMaskId + 1 := rfl
  rw [hn1]
  omega

theorem batchIdsWF_tail_noncreate (db : DB) (item : BatchMaskItem)
    (rest : List BatchMaskItem) (hcF : item.isCreate = false)
    (hids : BatchIdsWF db (item :: rest)) :
    BatchIdsWF db rest := by
  intro it hit mid hmid hcr
  have h0 := hids it (List.mem_cons_of_mem item hit) mid hmid hcr
  rw [createCountOf_cons_noncreate item rest hcF] at h0
  exact h0

theorem batchIdsWF_tail_update (db : DB) (target : Nat) (item : BatchMaskItem)
    (rest : List BatchMaskItem) (hcF : item.isCreate = false)
    (hids : BatchIdsWF db (item :: rest)) :
    BatchIdsWF (updateApply db target item) rest := by
  intro it hit mid hmid hcr
  have h0 := hids it (List.mem_cons_of_mem item hit) mid hmid hcr
  rw [createCountOf_cons_noncreate item rest hcF] at h0
  have hn1 : (updateApply db target item).nextMaskId = db.nextMaskId := rfl
  rw [hn1]
  exact h0

theorem batchIdsWF_head_ne (db : DB) (item : BatchMaskItem)
    (rest : List BatchMaskItem) (hc : item.isCreate = true)
    (hids : BatchIdsWF db (item :: rest))
    (it : BatchMaskItem) (hit : it ∈ rest) (mid : Nat)
    (hmid : it.mask_id = some mid) (hcr : it.isCreate = false) :
    ¬ db.nextMaskId = mid := by
  have h0 := hids it (List.mem_cons_of_mem item hit) mid hmid hcr
  rw [createCountOf_cons_create item rest hc] at h0
  omega

theorem batchLoop_spec (pid : Nat) :
    ∀ (items : List BatchMaskItem) (db : DB), BatchIdsWF db items →
      db.nextMaskId ≤ (batchLoop pid db items).1.nextMaskId ∧
      (batchLoop pid db items).1.users = db.users ∧
      (batchLoop pid db items).1.pharmacies = db.pharmacies ∧
      (batchLoop pid db items).1.transactions = db.transactions ∧
      (∀ mid pid2, mid < db.nextMaskId ∨ db.nextMaskId + createCountOf items ≤ mid →
        ((batchLoop pid db items).1.findMaskOfPharmacy mid pid2).isSome =
          (db.findMaskOfPharmacy mid pid2).isSome) ∧
      (batchLoop pid db items).2.2.2 = batchFailedOf db pid items ∧
      (batchLoop pid db items).2.1 = createCountOf items ∧
      (batchLoop pid db items).2.2.1 = updatedCountOf db pid items ∧
      (∀ m ∈ db.masks, (∀ it ∈ items, it.isCreate = false → it.mask_id ≠ some m.id) →
        m ∈ (batchLoop pid db items).1.masks) := by
  intro items
  induction items with
  | nil =>
    intro db hids
    unfold batchLoop
    exact ⟨le_refl _, rfl, rfl, rfl, fun _ _ _ => rfl, rfl, rfl, rfl,
      fun m hm _ => hm⟩
  | cons item rest ih =>
    intro db hids
    unfold batchLoop
    by_cases hc : item.isCreate
    · rw [if_pos hc]
      dsimp only
      set db1 : DB := createApply db pid item with hdb1
      have hle1 : db.nextMaskId ≤ db1.nextMaskId := Nat.le_succ _
      have hn1 : db1.nextMaskId = db.nextMaskId + 1 := rfl
      have hcnt := createCountOf_cons_create item rest hc
      obtain ⟨hnext, husers, hpharms, htxs, hstab, hfail, hcc, huc, hframe⟩ :=
        ih db1 (batchIdsWF_tail_create db pid item rest hc hids)
      cases hloop : batchLoop pid db1 rest with
      | mk dbOut cnt =>
        obtain ⟨c, u, f⟩ := cnt
        rw [hloop] at hnext husers hpharms htxs hstab hfail hcc huc hframe
        dsimp only at hnext husers hpharms htxs hstab hfail hcc huc hframe ⊢
        refine ⟨le_trans hle1 hnext, husers, hpharms, htxs, ?_, ?_, ?_, ?_, ?_⟩
        · intro mid pid2 hfs
          rw [hcnt] at hfs
          rw [hstab mid pid2 (by omega)]
          rw [hdb1, createApply_findMaskOfPharmacy_old db pid item mid pid2 (by omega)]
        · rw [hfail]
          unfold batchFailedOf
          rw [List.filterMap_cons_none]
          · apply List.filterMap_congr
            intro it hit
            unfold itemBadUpdate
            by_cases hc2 : it.isCreate
            · rw [if_pos hc2, if_pos hc2]
            · rw [if_neg hc2, if_neg hc2]
              cases hmid : it.mask_id with
              | none => rfl
              | some mid =>
                have hne := batchIdsWF_head_ne db item rest hc hids it hit mid hmid
                  (Bool.not_eq_true _ ▸ eq_false_of_ne_true hc2)
                dsimp only
                rw [hdb1, createApply_findMaskOfPharmacy_old db pid item mid pid hne]
          · unfold itemBadUpdate
            rw [if_pos hc]
        · rw [hcc]
          unfold createCountOf
          rw [List.filter_cons, if_pos hc]
          simp [Nat.add_comm]
        · rw [huc]
          unfold updatedCountOf
          rw [List.filter_cons]
          have hfalse : (!item.isCreate &&
              (match item.mask_id with
               | some mid => (db.findMaskOfPharmacy mid pid).isSome
               | none => false)) = false := by
            rw [hc]
            rfl
          rw [if_neg (by simp [hfalse])]
          apply congrArg List.length
          apply List.filter_congr
          intro it hit
          by_cases hc2 : it.isCreate
          · simp [hc2]
          · cases hmid : it.mask_id with
            | none => simp [hc2, hmid]
            | some mid =>
              have hne := batchIdsWF_head_ne db item rest hc hids it hit mid hmid
                (Bool.not_eq_true _ ▸ eq_false_of_ne_true hc2)
              have hrw := createApply_findMaskOfPharmacy_old db pid item mid pid hne
              simp [hc2, hmid, hdb1, hrw]
        · intro m hm hnotarget
          apply hframe m
          · rw [hdb1]
            unfold createApply
            exact List.mem_append_left _ hm
          · intro it hit
            exact hnotarget it (List.mem_cons_of_mem item hit)
    · rw [if_neg hc]
      have hcF : item.isCreate = false := eq_false_of_ne_true hc
      cases hmid : item.mask_id with
      | none =>
        dsimp only
        obtain ⟨hnext, husers, hpharms, htxs, hstab, hfail, hcc, huc, hframe⟩ :=
          ih db (batchIdsWF_tail_noncreate db item rest hcF hids)
        cases hloop : batchLoop pid db rest with
        | mk dbOut cnt =>
          obtain ⟨c, u, f⟩ := cnt
          rw [hloop] at hnext husers hpharms htxs hstab hfail hcc huc hframe
          dsimp only at hnext husers hpharms htxs hstab hfail hcc huc hframe ⊢
          refine ⟨hnext, husers, hpharms, htxs, ?_, ?_, ?_, ?_, ?_⟩
          · intro mid2 pid2 hfs
            rw [createCountOf_cons_noncreate item rest hcF] at hfs
            exact hstab mid2 pid2 hfs
          · rw [hfail]
            unfold batchFailedOf
            rw [List.filterMap_cons_none]
            unfold itemBadUpdate
            rw [if_neg hc, hmid]
          · rw [hcc]
            unfold createCountOf
            rw [List.filter_cons, if_neg (by simp [hcF])]
          · rw [huc]
            unfold updatedCountOf
            rw [List.filter_cons, if_neg (by simp [hcF, hmid])]
          · intro m hm hnotarget
            exact hframe m hm (fun it hit => hnotarget it (List.mem_cons_of_mem item hit))
      | some mid =>
        dsimp only
        cases hfound : db.findMaskOfPharmacy mid pid with
        | none =>
          obtain ⟨hnext, husers, hpharms, htxs, hstab, hfail, hcc, huc, hframe⟩ :=
            ih db (batchIdsWF_tail_noncreate db item rest hcF hids)
          cases hloop : batchLoop pid db rest with
          | mk dbOut cnt =>
            obtain ⟨c, u, f⟩ := cnt
            rw [hloop] at hnext husers hpharms htxs hstab hfail hcc huc hframe
            dsimp only at hnext husers hpharms htxs hstab hfail hcc huc hframe ⊢
            refine ⟨hnext, husers, hpharms, htxs, ?_, ?_, ?_, ?_, ?_⟩
            · intro mid2 pid2 hfs
              rw [createCountOf_cons_noncreate item rest hcF] at hfs
              exact hstab mid2 pid2 hfs
            · have hbad : itemBadUpdate db pid item =
                  some (mask_update_target_missing mid) := by
                unfold itemBadUpdate
                rw [if_neg hc, hmid]
                dsimp only
                simp [hfound]
              rw [hfail]
              unfold batchFailedOf
              rw [List.filterMap_cons_some hbad]
            · rw [hcc]
              unfold createCountOf
              rw [List.filter_cons, if_neg (by simp [hcF])]
            · rw [huc]
              unfold updatedCountOf
              rw [List.filter_cons, if_neg (by simp [hcF, hmid, hfound])]
            · intro m hm hnotarget
              exact hframe m hm (fun it hit => hnotarget it (List.mem_cons_of_mem item hit))
        | some m0 =>
          set db1 : DB := updateApply db mid item with hdb1
          have hle1 : db.nextMaskId ≤ db1.nextMaskId := le_refl _
          have hn1 : db1.nextMaskId = db.nextMaskId := rfl
          obtain ⟨hnext, husers, hpharms, htxs, hstab, hfail, hcc, huc, hframe⟩ :=
            ih db1 (batchIdsWF_tail_update db mid item rest hcF hids)
          cases hloop : batchLoop pid db1 rest with
          | mk dbOut cnt =>
            obtain ⟨c, u, f⟩ := cnt
            rw [hloop] at hnext husers hpharms htxs hstab hfail hcc huc hframe
            dsimp only at hnext husers hpharms htxs hstab hfail hcc huc hframe ⊢
            have hstep : ∀ mid2 pid2,
                (db1.findMaskOfPharmacy mid2 pid2).isSome =
                  (db.findMaskOfPharmacy mid2 pid2).isSome := by
              intro mid2 pid2
              rw [hdb1]
              exact updateApply_findMaskOfPharmacy_isSome db mid item mid2 pid2
            refine ⟨hnext, husers, hpharms, htxs, ?_, ?_, ?_, ?_, ?_⟩
            · intro mid2 pid2 hfs
              rw [createCountOf_cons_noncreate item rest hcF] at hfs
              rw [hstab mid2 pid2 (by omega), hstep mid2 pid2]
            · rw [hfail]
              unfold batchFailedOf
              rw [List.filterMap_cons_none]
              · apply List.filterMap_congr
                intro it hit
                unfold itemBadUpdate
                by_cases hc2 : it.isCreate
                · rw [if_pos hc2, if_pos hc2]
                · rw [if_neg hc2, if_neg hc2]
                  cases hmid2 : it.mask_id with
                  | none => rfl
                  | some mid2 =>
                    dsimp only
                    rw [hstep mid2 pid]
              · unfold itemBadUpdate
                rw [if_neg hc, hmid]
                dsimp only
                simp [hfound]
            · rw [hcc]
              unfold createCountOf
              rw [List.filter_cons, if_neg (by simp [hcF])]
            · rw [huc]
              unfold updatedCountOf
              rw [List.filter_cons]
              rw [if_pos (by simp [hcF, hmid, hfound])]
              have hcong : (rest.filter (fun it => !it.isCreate &&
                  (match it.mask_id with
                   | some mid2 => (db1.findMaskOfPharmacy mid2 pid).isSome
                   | none => false))) =
                  (rest.filter (fun it => !it.isCreate &&
                  (match it.mask_id with
                   | some mid2 => (db.findMaskOfPharmacy mid2 pid).isSome
                   | none => false))) := by
                apply List.filter_congr
                intro it hit
                by_cases hc2 : it.isCreate
                · simp [hc2]
                · cases hmid2 : it.mask_id with
                  | none => simp [hc2, hmid2]
                  | some mid2 => simp [hc2, hmid2, hstep mid2 pid]
              rw [hcong]
              simp [Nat.add_comm]
            · intro m hm hnotarget
              have hne : m.id ≠ mid := by
                intro hcon
                exact hnotarget item (List.mem_cons_self _ _) hcF (by rw [hmid, hcon])
              apply hframe m
              · rw [hdb1]
                show m ∈ db.masks.map _
                refine List.mem_map.mpr ⟨m, hm, ?_⟩
                rw [if_neg (fun hcon => hne hcon)]
              · intro it hit
                exact hnotarget it (List.mem_cons_of_mem item hit)

theorem updateApply_findMask_ne (db : DB) (mid : Nat) (item : BatchMaskItem)
    (mid2 : Nat) (hne : mid2 ≠ mid) :
    (updateApply db mid item).findMask mid2 = db.findMask mid2 :=
  findMask_modifyMask_ne db mid
    (fun m => { m with name := item.name, price := item.price,
                       stock_quantity := item.stock_quantity })
    (fun _ => rfl) mid2 hne

theorem updateApply_findMaskOfPharmacy_ne (db : DB) (mid : Nat) (item : BatchMaskItem)
    (mid2 pid2 : Nat) (hne : mid2 ≠ mid) :
    (updateApply db mid item).findMaskOfPharmacy mid2 pid2 =
      db.findMaskOfPharmacy mid2 pid2 :=
  findMaskOfPharmacy_modifyMask_ne db mid
    (fun m => { m with name := item.name, price := item.price,
                       stock_quantity := item.stock_quantity })
    (fun _ => rfl) (fun _ => rfl) mid2 pid2 hne

theorem createApply_WF (db : DB) (pid : Nat) (item : BatchMaskItem)
    (h : db.WF) : (createApply db pid item).WF := by
  obtain ⟨hu, hp, hm, hb⟩ := h
  refine ⟨hu, hp, ?_, ?_⟩
  · intro a ha b hb2 hid
    unfold createApply at ha hb2
    dsimp only at ha hb2
    rw [List.mem_append] at ha hb2
    cases ha with
    | inl ha =>
      cases hb2 with
      | inl hb3 => exact hm a ha b hb3 hid
      | inr hb3 =>
        exfalso
        have hbid : b = newMaskOf db pid item := by simpa using hb3
        have : a.id < db.nextMaskId := hb a ha
        rw [hid, hbid] at this
        exact absurd this (by unfold newMaskOf; simp)
    | inr ha =>
      cases hb2 with
      | inl hb3 =>
        exfalso
        have haid : a = newMaskOf db pid item := by simpa using ha
        have : b.id < db.nextMaskId := hb b hb3
        rw [← hid, haid] at this
        exact absurd this (by unfold newMaskOf; simp)
      | inr hb3 =>
        have haid : a = newMaskOf db pid item := by simpa using ha
        have hbid : b = newMaskOf db pid item := by simpa using hb3
        rw [haid, hbid]
  · intro m hm2
    unfold createApply at hm2 ⊢
    dsimp only at hm2 ⊢
    rw [List.mem_append] at hm2
    cases hm2 with
    | inl hm3 => exact lt_trans (hb m hm3) (Nat.lt_succ_self _)
    | inr hm3 =>
      have : m = newMaskOf db pid item := by simpa using hm3
      rw [this]
      unfold newMaskOf
      simp

theorem updateApply_WF (db : DB) (mid : Nat) (item : BatchMaskItem)
    (h : db.WF) : (updateApply db mid item).WF := by
  obtain ⟨hu, hp, hm, hb⟩ := h
  refine ⟨hu, hp, ?_, ?_⟩
  · intro a ha b hb2 hid
    unfold updateApply DB.modifyMask at ha hb2
    dsimp only at ha hb2
    obtain ⟨a0, ha0, ha1⟩ := List.mem_map.mp ha
    obtain ⟨b0, hb0, hb1⟩ := List.mem_map.mp hb2
    have haid : a.id = a0.id := by
      rw [← ha1]; by_cases hc : a0.id = mid <;> simp [hc]
    have hbid : b.id = b0.id := by
      rw [← hb1]; by_cases hc : b0.id = mid <;> simp [hc]
    have : a0 = b0 := hm a0 ha0 b0 hb0 (by rw [← haid, ← hbid, hid])
    rw [← ha1, ← hb1, this]
  · intro m hm2
    unfold updateApply DB.modifyMask at hm2
    dsimp only at hm2
    obtain ⟨m0, hm0, hm1⟩ := List.mem_map.mp hm2
    have : m.id = m0.id := by
      rw [← hm1]; by_cases hc : m0.id = mid <;> simp [hc]
    rw [this]
    exact hb m0 hm0

/-- The ids the update items of a request target, in order. -/
def updateTargets (items : List BatchMaskItem) : List Nat :=
  items.filterMap (fun it => if it.isCreate then none else it.mask_id)

/-- A mask id no update item targets keeps its row across the whole loop. -/
theorem batchLoop_findMask_frame (pid : Nat) :
    ∀ (items : List BatchMaskItem) (db : DB) (mid : Nat), mid < db.nextMaskId →
      (∀ it ∈ items, it.isCreate = false → it.mask_id ≠ some mid) →
      (batchLoop pid db items).1.findMask mid = db.findMask mid := by
  intro items
  induction items with
  | nil => intro db mid _ _; rfl
  | cons item rest ih =>
    intro db mid hlt hno
    unfold batchLoop
    by_cases hc : item.isCreate
    · rw [if_pos hc]
      dsimp only
      cases hloop : batchLoop pid (createApply db pid item) rest with
      | mk dbOut cnt =>
        obtain ⟨c, u, f⟩ := cnt
        dsimp only
        have := ih (createApply db pid item) mid
          (lt_trans hlt (Nat.lt_succ_self _))
          (fun it hit => hno it (List.mem_cons_of_mem item hit))
        rw [hloop] at this
        dsimp only at this
        rw [this, createApply_findMask_old db pid item mid (by omega)]
    · rw [if_neg hc]
      have hcF : item.isCreate = false := eq_false_of_ne_true hc
      cases hmid : item.mask_id with
      | none =>
        dsimp only
        cases hloop : batchLoop pid db rest with
        | mk dbOut cnt =>
          obtain ⟨c, u, f⟩ := cnt
          dsimp only
          have := ih db mid hlt (fun it hit => hno it (List.mem_cons_of_mem item hit))
          rw [hloop] at this
          exact this
      | some target =>
        dsimp only
        cases hfound : db.findMaskOfPharmacy target pid with
        | none =>
          cases hloop : batchLoop pid db rest with
          | mk dbOut cnt =>
            obtain ⟨c, u, f⟩ := cnt
            dsimp only
            have := ih db mid hlt (fun it hit => hno it (List.mem_cons_of_mem item hit))
            rw [hloop] at this
            exact this
        | some m0 =>
          cases hloop : batchLoop pid (updateApply db target item) rest with
          | mk dbOut cnt =>
            obtain ⟨c, u, f⟩ := cnt
            dsimp only
            have hne : mid ≠ target := by
              intro hcon
              exact hno item (List.mem_cons_self _ _) hcF (by rw [hmid, hcon])
            have := ih (updateApply db target item) mid hlt
              (fun it hit => hno it (List.mem_cons_of_mem item hit))
            rw [hloop] at this
            dsimp only at this
            rw [this, updateApply_findMask_ne db target item mid hne]

theorem updateTargets_cons_create (item : BatchMaskItem) (rest : List BatchMaskItem)
    (hc : item.isCreate = true) :
    updateTargets (item :: rest) = updateTargets rest := by
  unfold updateTargets
  rw [List.filterMap_cons_none]
  simp [hc]

theorem updateTargets_cons_update (item : BatchMaskItem) (rest : List BatchMaskItem)
    (target : Nat) (hc : item.isCreate = false) (hmid : item.mask_id = some target) :
    updateTargets (item :: rest) = target :: updateTargets rest := by
  unfold updateTargets
  rw [List.filterMap_cons_some]
  simp [hc, hmid]

theorem updateTargets_cons_nonid (item : BatchMaskItem) (rest : List BatchMaskItem)
    (hc : item.isCreate = false) (hmid : item.mask_id = none) :
    updateTargets (item :: rest) = updateTargets rest := by
  unfold updateTargets
  rw [List.filterMap_cons_none]
  simp [hc, hmid]

theorem mem_updateTargets (items : List BatchMaskItem) (it : BatchMaskItem)
    (hit : it ∈ items) (hc : it.isCreate = false) (mid : Nat)
    (hmid : it.mask_id = some mid) : mid ∈ updateTargets items := by
  unfold updateTargets
  rw [List.mem_filterMap]
  exact ⟨it, hit, by rw [hc]; simpa using hmid⟩

/-- A found update item is applied: after the loop, its target row carries the
item's name, price and stock (assuming pairwise distinct update targets). -/
theorem batchLoop_update_applied (pid : Nat) :
    ∀ (items : List BatchMaskItem) (db : DB), db.WF →
      (updateTargets items).Nodup →
      ∀ it ∈ items, it.isCreate = false → ∀ mid, it.mask_id = some mid →
      ∀ m0, db.findMaskOfPharmacy mid pid = some m0 →
      (batchLoop pid db items).1.findMask mid =
        some { m0 with name := it.name, price := it.price,
                       stock_quantity := it.stock_quantity } := by
  intro items
  induction items with
  | nil =>
    intro db _ _ it hit
    cases hit
  | cons item rest ih =>
    intro db hwf hnodup it hit hcF mid hmid m0 hfound
    have hlt : mid < db.nextMaskId := by
      obtain ⟨hmem, hid0, -⟩ := findMaskOfPharmacy_some db mid pid m0 hfound
      exact hid0 ▸ hwf.2.2.2 m0 hmem
    cases hit with
    | head =>
      unfold batchLoop
      rw [if_neg (by rw [hcF]; exact Bool.false_ne_true)]
      rw [hmid]
      dsimp only
      rw [hfound]
      dsimp only
      cases hloop : batchLoop pid (updateApply db mid item) rest with
      | mk dbOut cnt =>
        obtain ⟨c, u, f⟩ := cnt
        dsimp only
        have hrestno : ∀ it2 ∈ rest, it2.isCreate = false → it2.mask_id ≠ some mid := by
          intro it2 hit2 hc2 hcon
          rw [updateTargets_cons_update item rest mid hcF hmid] at hnodup
          have hmem : mid ∈ updateTargets rest :=
            mem_updateTargets rest it2 hit2 hc2 mid hcon
          exact (List.nodup_cons.mp hnodup).1 hmem
        have hframe := batchLoop_findMask_frame pid rest (updateApply db mid item)
          mid hlt hrestno
        rw [hloop] at hframe
        dsimp only at hframe
        rw [hframe]
        have hrow : db.findMask mid = some m0 :=
          findMask_of_findMaskOfPharmacy db hwf mid pid m0 hfound
        unfold updateApply
        rw [findMask_modifyMask db mid
            (fun m => { m with name := item.name, price := item.price,
                               stock_quantity := item.stock_quantity })
            (fun _ => rfl) mid, hrow]
        have hid0 : m0.id = mid := (findMaskOfPharmacy_some db mid pid m0 hfound).2.1
        simp [hid0]
    | tail _ hit2 =>
      unfold batchLoop
      by_cases hc : item.isCreate
      · rw [if_pos hc]
        dsimp only
        cases hloop : batchLoop pid (createApply db pid item) rest with
        | mk dbOut cnt =>
          obtain ⟨c, u, f⟩ := cnt
          dsimp only
          have hfound2 : (createApply db pid item).findMaskOfPharmacy mid pid = some m0 := by
            rw [createApply_findMaskOfPharmacy_old db pid item mid pid (by omega)]
            exact hfound
          have hnodup2 : (updateTargets rest).Nodup := by
            rw [updateTargets_cons_create item rest hc] at hnodup
            exact hnodup
          have := ih (createApply db pid item) (createApply_WF db pid item hwf)
            hnodup2 it hit2 hcF mid hmid m0 hfound2
          rw [hloop] at this
          exact this
      · rw [if_neg hc]
        have hcF2 : item.isCreate = false := eq_false_of_ne_true hc
        cases hmid2 : item.mask_id with
        | none =>
          dsimp only
          cases hloop : batchLoop pid db rest with
          | mk dbOut cnt =>
            obtain ⟨c, u, f⟩ := cnt
            dsimp only
            have hnodup2 : (updateTargets rest).Nodup := by
              rw [updateTargets_cons_nonid item rest hcF2 hmid2] at hnodup
              exact hnodup
            have := ih db hwf hnodup2 it hit2 hcF mid hmid m0 hfound
            rw [hloop] at this
            exact this
        | some target =>
          dsimp only
          have hnodup2 : (updateTargets rest).Nodup := by
            rw [updateTargets_cons_update item rest target hcF2 hmid2] at hnodup
            exact (List.nodup_cons.mp hnodup).2
          have hne : target ≠ mid := by
            intro hcon
            rw [updateTargets_cons_update item rest target hcF2 hmid2] at hnodup
            have hmem : mid ∈ updateTargets rest :=
              mem_updateTargets rest it hit2 hcF mid hmid
            rw [hcon] at hnodup
            exact (List.nodup_cons.mp hnodup).1 hmem
          cases hfound2 : db.findMaskOfPharmacy target pid with
          | none =>
            cases hloop : batchLoop pid db rest with
            | mk dbOut cnt =>
              obtain ⟨c, u, f⟩ := cnt
              dsimp only
              have := ih db hwf hnodup2 it hit2 hcF mid hmid m0 hfound
              rw [hloop] at this
              exact this
          | some mt =>
            cases hloop : batchLoop pid (updateApply db target item) rest with
            | mk dbOut cnt =>
              obtain ⟨c, u, f⟩ := cnt
              dsimp only
              have hfound3 : (updateApply db target item).findMaskOfPharmacy mid pid = some m0 := by
                rw [updateApply_findMaskOfPharmacy_ne db target item mid pid
                  (fun hcon => hne (hcon.symm))]
                exact hfound
              have := ih (updateApply db target item)
                (updateApply_WF db target item hwf)
                hnodup2 it hit2 hcF mid hmid m0 hfound3
              rw [hloop] at this
              exact this

/-- A create item is applied: after the loop some mask row of the pharmacy
carries the item's name, price and stock. -/
theorem batchLoop_create_applied (pid : Nat) :
    ∀ (items : List BatchMaskItem) (db : DB), BatchIdsWF db items →
      ∀ it ∈ items, it.isCreate = true →
      ∃ m ∈ (batchLoop pid db items).1.masks,
        m.pharmacy_id = pid ∧ m.name = it.name ∧ m.price = it.price ∧
        m.stock_quantity = it.stock_quantity := by
  intro items
  induction items with
  | nil =>
    intro db _ it hit
    cases hit
  | cons item rest ih =>
    intro db hids it hit hcT
    cases hit with
    | head =>
      unfold batchLoop
      rw [if_pos hcT]
      dsimp only
      cases hloop : batchLoop pid (createApply db pid item) rest with
      | mk dbOut cnt =>
        obtain ⟨c, u, f⟩ := cnt
        dsimp only
        obtain ⟨-, -, -, -, -, -, -, -, hframe⟩ :=
          batchLoop_spec pid rest (createApply db pid item)
            (batchIdsWF_tail_create db pid item rest hcT hids)
        rw [hloop] at hframe
        dsimp only at hframe
        have hmem : newMaskOf db pid item ∈ (createApply db pid item).masks := by
          unfold createApply
          dsimp only
          exact List.mem_append_right _ (List.mem_singleton_self _)
        have hno : ∀ it3 ∈ rest, it3.isCreate = false →
            it3.mask_id ≠ some (newMaskOf db pid item).id := by
          intro it3 hit3 hc3 hcon
          have h0 := hids it3 (List.mem_cons_of_mem item hit3) (newMaskOf db pid item).id
            hcon hc3
          rw [createCountOf_cons_create item rest hcT] at h0
          have hidn : (newMaskOf db pid item).id = db.nextMaskId := rfl
          rw [hidn] at h0
          omega
        refine ⟨newMaskOf db pid item, hframe _ hmem hno, rfl, rfl, rfl, rfl⟩
    | tail _ hit2 =>
      unfold batchLoop
      by_cases hc : item.isCreate
      · rw [if_pos hc]
        dsimp only
        cases hloop : batchLoop pid (createApply db pid item) rest with
        | mk dbOut cnt =>
          obtain ⟨c, u, f⟩ := cnt
          dsimp only
          have := ih (createApply db pid item)
            (batchIdsWF_tail_create db pid item rest hc hids) it hit2 hcT
          rw [hloop] at this
          exact this
      · rw [if_neg hc]
        have hcF := eq_false_of_ne_true hc
        cases hmid2 : item.mask_id with
        | none =>
          dsimp only
          cases hloop : batchLoop pid db rest with
          | mk dbOut cnt =>
            obtain ⟨c, u, f⟩ := cnt
            dsimp only
            have := ih db (batchIdsWF_tail_noncreate db item rest hcF hids) it hit2 hcT
            rw [hloop] at this
            exact this
        | some target =>
          dsimp only
          cases hfound2 : db.findMaskOfPharmacy target pid with
          | none =>
            cases hloop : batchLoop pid db rest with
            | mk dbOut cnt =>
              obtain ⟨c, u, f⟩ := cnt
              dsimp only
              have := ih db (batchIdsWF_tail_noncreate db item rest hcF hids) it hit2 hcT
              rw [hloop] at this
              exact this
          | some mt =>
            cases hloop : batchLoop pid (updateApply db target item) rest with
            | mk dbOut cnt =>
              obtain ⟨c, u, f⟩ := cnt
              dsimp only
              have := ih (updateApply db target item)
                (batchIdsWF_tail_update db target item rest hcF hids) it hit2 hcT
              rw [hloop] at this
              exact this

/-- When the pharmacy exists and both create-name checks pass, the batch call
commits whatever the item loop produced. -/
theorem batch_manage_masks_ok (db : DB) (r : BatchMaskRequest) (pharmacy : Pharmacy)
    (hph : db.findPharmacy r.pharmacy_id = some pharmacy)
    (hdup : ((createNamesOf r).dedup.length != (createNamesOf r).length) = false)
    (hex : (db.masks.any (fun m => m.pharmacy_id == r.pharmacy_id &&
      (createNamesOf r).dedup.contains m.name)) = false) :
    batch_manage_masks db r none =
      ((batchLoop r.pharmacy_id db r.masks).1,
       .ok { pharmacy_id := r.pharmacy_id, pharmacy_name := pharmacy.name,
             total_items := r.masks.length,
             created_count := (batchLoop r.pharmacy_id db r.masks).2.1,
             updated_count := (batchLoop r.pharmacy_id db r.masks).2.2.1,
             failed_items := (batchLoop r.pharmacy_id db r.masks).2.2.2 }) := by
  unfold batch_manage_masks
  rw [hph]
  dsimp only
  rw [hdup, if_neg (by simp), hex, if_neg (by simp)]

/-! Aggregates used to state the claims, phrased against the pre-call store
and against the committed records. -/

/-- The total a line item costs, read off the pre-call store (price of the
item's mask at its pharmacy times the quantity). -/
def itemTotalIn (db : DB) (it : MultiPharmacyTransactionItem) : ℤ :=
  ((db.findMaskOfPharmacy it.mask_id it.pharmacy_id).map
    (fun m => m.price * it.quantity)).getD 0

/-- The Purchase Record a successful multi purchase commits for one item,
phrased against the pre-call store. -/
def committedRecordFor (db : DB) (uid now : Nat)
    (it : MultiPharmacyTransactionItem) : Transaction :=
  { user_id := uid, pharmacy_id := it.pharmacy_id, mask_id := it.mask_id,
    quantity := it.quantity,
    unit_price := ((db.findMaskOfPharmacy it.mask_id it.pharmacy_id).map
      Mask.price).getD 0,
    total_amount := itemTotalIn db it, transaction_datetime := now }

/-- Total quantity a request's items ask of one mask id. -/
def requestedQtyFor (items : List MultiPharmacyTransactionItem) (mid : Nat) : ℤ :=
  ((items.filter (fun it => it.mask_id == mid)).map (fun it => it.quantity)).sum

/-- Total money a request's items credit to one pharmacy id. -/
def creditFor (db : DB) (items : List MultiPharmacyTransactionItem) (pid : Nat) : ℤ :=
  ((items.filter (fun it => it.pharmacy_id == pid)).map (itemTotalIn db)).sum

/-- Sum of all the request's item totals. -/
def grandTotalOf (db : DB) (items : List MultiPharmacyTransactionItem) : ℤ :=
  (items.map (itemTotalIn db)).sum

/-- Sum of the total_amount fields of the committed records of one pharmacy. -/
def recTotalFor (ts : List Transaction) (pid : Nat) : ℤ :=
  ((ts.filter (fun t => t.pharmacy_id == pid)).map (fun t => t.total_amount)).sum

/-- Sum of the quantity fields of the committed records of one mask. -/
def recQtyFor (ts : List Transaction) (mid : Nat) : ℤ :=
  ((ts.filter (fun t => t.mask_id == mid)).map (fun t => t.quantity)).sum

/-- Sum of the total_amount fields of all committed records. -/
def recGrandTotal (ts : List Transaction) : ℤ :=
  (ts.map (fun t => t.total_amount)).sum

theorem requestedQtyFor_map_fst (mid : Nat) :
    ∀ (vitems : List (MultiPharmacyTransactionItem × ℤ)),
      requestedQtyFor (vitems.map Prod.fst) mid = sumQtyFor vitems mid := by
  intro vitems
  induction vitems with
  | nil => rfl
  | cons v rest ih =>
    rw [List.map_cons]
    unfold requestedQtyFor sumQtyFor at ih ⊢
    rw [List.filter_cons, List.filter_cons]
    by_cases h : v.1.mask_id == mid
    · rw [if_pos h, if_pos h, List.map_cons, List.map_cons,
        List.sum_cons, List.sum_cons, ih]
    · rw [if_neg h, if_neg h, ih]

theorem creditFor_map_fst (db : DB) (pid : Nat) :
    ∀ (vitems : List (MultiPharmacyTransactionItem × ℤ)),
      (∀ v ∈ vitems, v.2 = itemTotalIn db v.1) →
      creditFor db (vitems.map Prod.fst) pid = sumCreditFor vitems pid := by
  intro vitems
  induction vitems with
  | nil => intro _; rfl
  | cons v rest ih =>
    intro hv
    rw [List.map_cons]
    unfold creditFor sumCreditFor at ih ⊢
    rw [List.filter_cons, List.filter_cons]
    have hrest := ih (fun w hw => hv w (List.mem_cons_of_mem v hw))
    by_cases h : v.1.pharmacy_id == pid
    · rw [if_pos h, if_pos h, List.map_cons, List.map_cons,
        List.sum_cons, List.sum_cons, hrest,
        hv v (List.mem_cons_self v rest)]
    · rw [if_neg h, if_neg h, hrest]

theorem grandTotalOf_map_fst (db : DB) :
    ∀ (vitems : List (MultiPharmacyTransactionItem × ℤ)),
      (∀ v ∈ vitems, v.2 = itemTotalIn db v.1) →
      grandTotalOf db (vitems.map Prod.fst) = (vitems.map Prod.snd).sum := by
  intro vitems
  induction vitems with
  | nil => intro _; rfl
  | cons v rest ih =>
    intro hv
    unfold grandTotalOf at ih ⊢
    rw [List.map_cons, List.map_cons, List.map_cons, List.sum_cons, List.sum_cons,
      ih (fun w hw => hv w (List.mem_cons_of_mem v hw)),
      hv v (List.mem_cons_self v rest)]

theorem recTotalFor_recordOf (db : DB) (uid now pid : Nat) :
    ∀ (vitems : List (MultiPharmacyTransactionItem × ℤ)),
      recTotalFor (vitems.map (recordOf db uid now)) pid = sumCreditFor vitems pid := by
  intro vitems
  induction vitems with
  | nil => rfl
  | cons v rest ih =>
    rw [List.map_cons]
    unfold recTotalFor sumCreditFor at ih ⊢
    rw [List.filter_cons, List.filter_cons]
    by_cases h : v.1.pharmacy_id == pid
    · rw [if_pos (by exact h), if_pos h, List.map_cons, List.map_cons,
        List.sum_cons, List.sum_cons, ih]
      rfl
    · rw [if_neg (by exact h), if_neg h, ih]

theorem recQtyFor_recordOf (db : DB) (uid now mid : Nat) :
    ∀ (vitems : List (MultiPharmacyTransactionItem × ℤ)),
      recQtyFor (vitems.map (recordOf db uid now)) mid = sumQtyFor vitems mid := by
  intro vitems
  induction vitems with
  | nil => rfl
  | cons v rest ih =>
    rw [List.map_cons]
    unfold recQtyFor sumQtyFor at ih ⊢
    rw [List.filter_cons, List.filter_cons]
    by_cases h : v.1.mask_id == mid
    · rw [if_pos (by exact h), if_pos h, List.map_cons, List.map_cons,
        List.sum_cons, List.sum_cons, ih]
      rfl
    · rw [if_neg (by exact h), if_neg h, ih]

theorem recGrandTotal_recordOf (db : DB) (uid now : Nat)
    (vitems : List (MultiPharmacyTransactionItem × ℤ)) :
    recGrandTotal (vitems.map (recordOf db uid now)) = (vitems.map Prod.snd).sum := by
  unfold recGrandTotal
  rw [List.map_map]
  rfl

/-- Under primary-key uniqueness, the loop record of a validated item is the
claim-side committed record of its item. -/
theorem recordOf_eq_committedRecordFor (db : DB) (hwf : db.WF) (uid now : Nat)
    (v : MultiPharmacyTransactionItem × ℤ) (m : Mask)
    (hm : db.findMaskOfPharmacy v.1.mask_id v.1.pharmacy_id = some m)
    (ht : v.2 = m.price * v.1.quantity) :
    recordOf db uid now v = committedRecordFor db uid now v.1 := by
  unfold recordOf committedRecordFor itemTotalIn
  have hrow : db.findMask v.1.mask_id = some m :=
    findMask_of_findMaskOfPharmacy db hwf _ _ m hm
  rw [hrow, hm, ht]
  rfl

/-! Concrete store fixtures used by witnesses and counterexamples. -/

/-- A small well-formed store: one user, two pharmacies, three masks. -/
def dbW : DB :=
  { users := [{ id := 1, name := "u", cash_balance := 100 }],
    pharmacies := [{ id := 1, name := "p", cash_balance := 50 },
                   { id := 2, name := "q", cash_balance := 0 }],
    masks := [{ id := 1, name := "A", price := 5, stock_quantity := 10, pharmacy_id := 1 },
              { id := 2, name := "B", price := 3, stock_quantity := 4, pharmacy_id := 2 },
              { id := 3, name := "C", price := 2, stock_quantity := 5, pharmacy_id := 1 }],
    transactions := [], nextMaskId := 4 }

/-! Claim theorems. -/

/-- C7: for every input with quantity > 0, the validation stage either returns
the resolved user, pharmacy and mask together with the computed total
(price times quantity), or fails with exactly the first applicable error
among: user not found; pharmacy not found; mask absent from that pharmacy;
insufficient stock (quantity exceeds current stock); insufficient balance
(balance below the total). -/
theorem C7_validation_contract (db : DB) (user_id pharmacy_id mask_id : Nat)
    (quantity : ℤ) (_hq : 0 < quantity) :
    (db.findUser user_id = none ∧
      validate_transaction_item db user_id pharmacy_id mask_id quantity =
        .error (.userNotFound user_id)) ∨
    (∃ u, db.findUser user_id = some u ∧ db.findPharmacy pharmacy_id = none ∧
      validate_transaction_item db user_id pharmacy_id mask_id quantity =
        .error (.pharmacyNotFound pharmacy_id)) ∨
    (∃ u p, db.findUser user_id = some u ∧ db.findPharmacy pharmacy_id = some p ∧
      db.findMaskOfPharmacy mask_id pharmacy_id = none ∧
      validate_transaction_item db user_id pharmacy_id mask_id quantity =
        .error (.maskNotFoundForPharmacy pharmacy_id mask_id)) ∨
    (∃ u p m, db.findUser user_id = some u ∧ db.findPharmacy pharmacy_id = some p ∧
      db.findMaskOfPharmacy mask_id pharmacy_id = some m ∧
      m.stock_quantity < quantity ∧
      validate_transaction_item db user_id pharmacy_id mask_id quantity =
        .error (.insufficientStock m.name m.stock_quantity quantity)) ∨
    (∃ u p m, db.findUser user_id = some u ∧ db.findPharmacy pharmacy_id = some p ∧
      db.findMaskOfPharmacy mask_id pharmacy_id = some m ∧
      ¬ m.stock_quantity < quantity ∧
      u.cash_balance < m.price * quantity ∧
      validate_transaction_item db user_id pharmacy_id mask_id quantity =
        .error (.insufficientBalance u.cash_balance (m.price * quantity))) ∨
    (∃ u p m, db.findUser user_id = some u ∧ db.findPharmacy pharmacy_id = some p ∧
      db.findMaskOfPharmacy mask_id pharmacy_id = some m ∧
      ¬ m.stock_quantity < quantity ∧
      ¬ u.cash_balance < m.price * quantity ∧
      validate_transaction_item db user_id pharmacy_id mask_id quantity =
        .ok (u, p, m, m.price * quantity)) := by
  unfold validate_transaction_item
  cases hu : db.findUser user_id with
  | none => exact Or.inl ⟨rfl, rfl⟩
  | some u =>
    cases hp : db.findPharmacy pharmacy_id with
    | none => exact Or.inr (Or.inl ⟨u, rfl, rfl, rfl⟩)
    | some p =>
      cases hm : db.findMaskOfPharmacy mask_id pharmacy_id with
      | none => exact Or.inr (Or.inr (Or.inl ⟨u, p, rfl, rfl, rfl, rfl⟩))
      | some m =>
        by_cases hs : m.stock_quantity < quantity
        · refine Or.inr (Or.inr (Or.inr (Or.inl ⟨u, p, m, rfl, rfl, rfl, hs, ?_⟩)))
          dsimp only
          rw [if_pos hs]
        · by_cases hb : u.cash_balance < m.price * quantity
          · refine Or.inr (Or.inr (Or.inr (Or.inr (Or.inl
              ⟨u, p, m, rfl, rfl, rfl, hs, hb, ?_⟩))))
            dsimp only
            rw [if_neg hs]
            rw [if_pos hb]
          · refine Or.inr (Or.inr (Or.inr (Or.inr (Or.inr
              ⟨u, p, m, rfl, rfl, rfl, hs, hb, ?_⟩))))
            dsimp only
            rw [if_neg hs]
            rw [if_neg hb]

/-- Witness for C7 at a concrete input: user 1 buys 2 of mask 1 at pharmacy 1
of the fixture store; the validation succeeds with total 10. -/
theorem C7_validation_contract_witness :
    (0 : ℤ) < 2 ∧
    ((dbW.findUser 1 = none ∧
      validate_transaction_item dbW 1 1 1 2 = .error (.userNotFound 1)) ∨
    (∃ u, dbW.findUser 1 = some u ∧ dbW.findPharmacy 1 = none ∧
      validate_transaction_item dbW 1 1 1 2 = .error (.pharmacyNotFound 1)) ∨
    (∃ u p, dbW.findUser 1 = some u ∧ dbW.findPharmacy 1 = some p ∧
      dbW.findMaskOfPharmacy 1 1 = none ∧
      validate_transaction_item dbW 1 1 1 2 = .error (.maskNotFoundForPharmacy 1 1)) ∨
    (∃ u p m, dbW.findUser 1 = some u ∧ dbW.findPharmacy 1 = some p ∧
      dbW.findMaskOfPharmacy 1 1 = some m ∧
      m.stock_quantity < 2 ∧
      validate_transaction_item dbW 1 1 1 2 =
        .error (.insufficientStock m.name m.stock_quantity 2)) ∨
    (∃ u p m, dbW.findUser 1 = some u ∧ dbW.findPharmacy 1 = some p ∧
      dbW.findMaskOfPharmacy 1 1 = some m ∧
      ¬ m.stock_quantity < 2 ∧
      u.cash_balance < m.price * 2 ∧
      validate_transaction_item dbW 1 1 1 2 =
        .error (.insufficientBalance u.cash_balance (m.price * 2))) ∨
    (∃ u p m, dbW.findUser 1 = some u ∧ dbW.findPharmacy 1 = some p ∧
      dbW.findMaskOfPharmacy 1 1 = some m ∧
      ¬ m.stock_quantity < 2 ∧
      ¬ u.cash_balance < m.price * 2 ∧
      validate_transaction_item dbW 1 1 1 2 =
        .ok (u, p, m, m.price * 2))) :=
  ⟨by decide, C7_validation_contract dbW 1 1 1 2 (by decide)⟩

/-- C8: the validation stage is a pure read: running it any number of times
against a session leaves every stored value (all tables) unchanged and keeps
returning the same result. -/
theorem C8_validation_read_only (db : DB) (user_id pharmacy_id mask_id : Nat)
    (quantity : ℤ) (n : Nat) :
    (validation_stage user_id pharmacy_id mask_id quantity db).1 = db ∧
    (fun s => (validation_stage user_id pharmacy_id mask_id quantity s).1)^[n] db = db ∧
    (validation_stage user_id pharmacy_id mask_id quantity
        ((fun s => (validation_stage user_id pharmacy_id mask_id quantity s).1)^[n] db)).2 =
      (validation_stage user_id pharmacy_id mask_id quantity db).2 := by
  have hid : (fun s => (validation_stage user_id pharmacy_id mask_id quantity s).1) = id :=
    rfl
  refine ⟨rfl, ?_, ?_⟩
  · rw [hid, Function.iterate_id, id]
  · rw [hid, Function.iterate_id, id]

/-- C2: every Purchase Record committed by a purchase (the rows a successful
call appends to the transactions table) satisfies
total_amount = unit_price * quantity exactly, on the single-item path and on
the multi-item path. -/
theorem C2_total_amount_product (db : DB) (hwf : db.WF)
    (r : TransactionCreate) (rm : MultiPharmacyTransactionCreate)
    (o : Option StoreError) (now : Nat) :
    (∀ db2 t, create_single_transaction db r o now = (db2, .ok t) →
      db2.transactions = db.transactions ++ [t] ∧
      t.total_amount = t.unit_price * t.quantity) ∧
    (∀ resp, (create_multi_pharmacy_transaction db rm o now).result = .ok resp →
      (create_multi_pharmacy_transaction db rm o now).post.transactions =
        db.transactions ++ resp.transactions ∧
      ∀ t ∈ resp.transactions, t.total_amount = t.unit_price * t.quantity) := by
  constructor
  · intro db2 t h
    obtain ⟨-, user_locked, mask_locked, pharmacy_locked, -, -, -, -, -,
      ht, htx, -, -, -, -, -, -, -⟩ := create_single_ok db r o now db2 t h
    refine ⟨htx, ?_⟩
    rw [ht]
  · intro resp h
    obtain ⟨-, user_obj, vitems, user_locked, db3, locks1, hva, -, -, hloop,
      -, -, -, -, -, hpost, -⟩ := create_multi_ok db rm o now resp h
    obtain ⟨-, -, -, htx3, hts, -, -⟩ :=
      multiLoop_ok rm.user_id now vitems db locks1 db3 resp.transactions hloop
    obtain ⟨-, hvals, -, -⟩ := validateAllItems_ok db rm.user_id rm.items _ _ hva
    constructor
    · rw [hpost]
      show db3.transactions = _
      exact htx3
    · intro t hmem
      rw [hts] at hmem
      obtain ⟨v, hv, hvt⟩ := List.mem_map.mp hmem
      obtain ⟨m, hm, ht2, -⟩ := hvals v hv
      have hrow : db.findMask v.1.mask_id = some m :=
        findMask_of_findMaskOfPharmacy db hwf _ _ m hm
      rw [← hvt]
      unfold recordOf
      rw [hrow]
      dsimp only
      rw [ht2]
      rfl

/-- Witness for C2 at concrete inputs: both the single purchase (user 1 buys
2 of mask 1) and the multi purchase (one item, 2 of mask 2 at pharmacy 2)
succeed on the fixture store and the appended records multiply out. -/
theorem C2_total_amount_product_witness :
    dbW.WF ∧
    ((∀ db2 t, create_single_transaction dbW
        { user_id := 1, pharmacy_id := 1, mask_id := 1, quantity := 2 } none 0 =
        (db2, .ok t) →
      db2.transactions = dbW.transactions ++ [t] ∧
      t.total_amount = t.unit_price * t.quantity) ∧
    (∀ resp, (create_multi_pharmacy_transaction dbW
        { user_id := 1, items := [{ pharmacy_id := 2, mask_id := 2, quantity := 2 }] }
        none 0).result = .ok resp →
      (create_multi_pharmacy_transaction dbW
        { user_id := 1, items := [{ pharmacy_id := 2, mask_id := 2, quantity := 2 }] }
        none 0).post.transactions = dbW.transactions ++ resp.transactions ∧
      ∀ t ∈ resp.transactions, t.total_amount = t.unit_price * t.quantity)) :=
  ⟨by decide,
   C2_total_amount_product dbW (by decide)
     { user_id := 1, pharmacy_id := 1, mask_id := 1, quantity := 2 }
     { user_id := 1, items := [{ pharmacy_id := 2, mask_id := 2, quantity := 2 }] }
     none 0⟩

/-- C1: a multi-item purchase is all-or-nothing: on any error the store equals
its pre-call state (zero new Purchase Records, every stock and balance at its
pre-call value); on success exactly one record per item is appended carrying
the requested data, every item's stock decrement and seller credit is applied,
and the buyer is debited once by the grand total. -/
theorem C1_multi_all_or_nothing (db : DB) (hwf : db.WF)
    (r : MultiPharmacyTransactionCreate) (o : Option StoreError) (now : Nat) :
    (∀ e, (create_multi_pharmacy_transaction db r o now).result = .error e →
      (create_multi_pharmacy_transaction db r o now).post = db) ∧
    (∀ resp, (create_multi_pharmacy_transaction db r o now).result = .ok resp →
      resp.transactions = r.items.map (committedRecordFor db r.user_id now) ∧
      resp.transactions.length = r.items.length ∧
      (create_multi_pharmacy_transaction db r o now).post.transactions =
        db.transactions ++ resp.transactions ∧
      (∀ mid, (create_multi_pharmacy_transaction db r o now).post.findMask mid =
        (db.findMask mid).map (fun m =>
          { m with stock_quantity := m.stock_quantity - requestedQtyFor r.items mid })) ∧
      (∀ pid, (create_multi_pharmacy_transaction db r o now).post.findPharmacy pid =
        (db.findPharmacy pid).map (fun p =>
          { p with cash_balance := p.cash_balance + creditFor db r.items pid })) ∧
      (∀ uid2, (create_multi_pharmacy_transaction db r o now).post.findUser uid2 =
        (db.findUser uid2).map (fun u =>
          if u.id = r.user_id
          then { u with cash_balance := u.cash_balance - grandTotalOf db r.items }
          else u))) := by
  constructor
  · intro e he
    cases create_multi_post_or_ok db r o now with
    | inl hpost => exact hpost
    | inr hok =>
      obtain ⟨resp, hres⟩ := hok
      rw [he] at hres
      cases hres
  · intro resp h
    obtain ⟨-, user_obj, vitems, user_locked, db3, locks1, hva, hu, -, hloop,
      -, -, -, -, -, hpost, -⟩ := create_multi_ok db r o now resp h
    obtain ⟨-, husers, -, htx3, hts, hstock, hcredit⟩ :=
      multiLoop_ok r.user_id now vitems db locks1 db3 resp.transactions hloop
    obtain ⟨hfst, hvals, -, -⟩ := validateAllItems_ok db r.user_id r.items _ _ hva
    have hsnd : ∀ v ∈ vitems, v.2 = itemTotalIn db v.1 := by
      intro v hv
      obtain ⟨m, hm, ht2, -⟩ := hvals v hv
      unfold itemTotalIn
      rw [hm, ht2]
      rfl
    have hrecs : resp.transactions = r.items.map (committedRecordFor db r.user_id now) := by
      rw [hts]
      have hpt : vitems.map (recordOf db r.user_id now) =
          vitems.map (fun v => committedRecordFor db r.user_id now v.1) := by
        apply List.map_congr_left
        intro v hv
        obtain ⟨m, hm, ht2, -⟩ := hvals v hv
        exact recordOf_eq_committedRecordFor db hwf r.user_id now v m hm ht2
      rw [hpt, ← hfst, List.map_map]
      rfl
    refine ⟨hrecs, by rw [hrecs, List.length_map], ?_, ?_, ?_, ?_⟩
    · rw [hpost]
      show db3.transactions = _
      exact htx3
    · intro mid
      have hpostmask : (create_multi_pharmacy_transaction db r o now).post.findMask mid =
          db3.findMask mid := by
        rw [hpost]
        rfl
      rw [hpostmask, hstock mid, ← hfst, requestedQtyFor_map_fst]
    · intro pid
      have hpostph : (create_multi_pharmacy_transaction db r o now).post.findPharmacy pid =
          db3.findPharmacy pid := by
        rw [hpost]
        rfl
      rw [hpostph, hcredit pid, ← hfst, creditFor_map_fst db pid vitems hsnd]
    · intro uid2
      have hu3 : db3.findUser r.user_id = some user_locked := by
        unfold DB.findUser
        rw [husers]
        exact hu
      have hwrite := findUser_balanceWrite db3 r.user_id user_locked
        ((vitems.map Prod.snd).sum) hu3 uid2
      have hbase : db3.findUser uid2 = db.findUser uid2 := by
        unfold DB.findUser
        rw [husers]
      rw [hpost, hwrite, hbase, ← hfst, grandTotalOf_map_fst db vitems hsnd]

/-- Two-item request used by witnesses: user 1 buys 1 of mask 1 at pharmacy 1
and 2 of mask 2 at pharmacy 2. -/
def reqW : MultiPharmacyTransactionCreate :=
  { user_id := 1, items := [{ pharmacy_id := 1, mask_id := 1, quantity := 1 },
                            { pharmacy_id := 2, mask_id := 2, quantity := 2 }] }

/-- Witness for C1 at a concrete input: the two-item request on the fixture
store. -/
theorem C1_multi_all_or_nothing_witness :
    dbW.WF ∧
    ((∀ e, (create_multi_pharmacy_transaction dbW reqW none 0).result = .error e →
      (create_multi_pharmacy_transaction dbW reqW none 0).post = dbW) ∧
    (∀ resp, (create_multi_pharmacy_transaction dbW reqW none 0).result = .ok resp →
      resp.transactions = reqW.items.map (committedRecordFor dbW reqW.user_id 0) ∧
      resp.transactions.length = reqW.items.length ∧
      (create_multi_pharmacy_transaction dbW reqW none 0).post.transactions =
        dbW.transactions ++ resp.transactions ∧
      (∀ mid, (create_multi_pharmacy_transaction dbW reqW none 0).post.findMask mid =
        (dbW.findMask mid).map (fun m =>
          { m with stock_quantity := m.stock_quantity - requestedQtyFor reqW.items mid })) ∧
      (∀ pid, (create_multi_pharmacy_transaction dbW reqW none 0).post.findPharmacy pid =
        (dbW.findPharmacy pid).map (fun p =>
          { p with cash_balance := p.cash_balance + creditFor dbW reqW.items pid })) ∧
      (∀ uid2, (create_multi_pharmacy_transaction dbW reqW none 0).post.findUser uid2 =
        (dbW.findUser uid2).map (fun u =>
          if u.id = reqW.user_id
          then { u with cash_balance := u.cash_balance - grandTotalOf dbW reqW.items }
          else u)))) :=
  ⟨by decide, C1_multi_all_or_nothing dbW (by decide) reqW none 0⟩

/-- C6: conservation of money and stock on success.  A successful single
purchase debits the buyer by exactly the record's total, credits the seller
by exactly that total, and decrements the stock by exactly the quantity.  A
successful multi purchase debits the buyer once by the sum of the committed
records' totals, credits each seller by the sum of its items' totals (its
item's total when it occurs in one item), and decrements each product's stock
by the sum of its items' quantities. -/
theorem C6_conservation (db : DB)
    (r : TransactionCreate) (rm : MultiPharmacyTransactionCreate)
    (o : Option StoreError) (now : Nat) :
    (∀ db2 t, create_single_transaction db r o now = (db2, .ok t) →
      (∀ u0, db.findUser r.user_id = some u0 →
        ∃ u1, db2.findUser r.user_id = some u1 ∧
          u0.cash_balance - u1.cash_balance = t.total_amount) ∧
      (∀ p0, db.findPharmacy r.pharmacy_id = some p0 →
        ∃ p1, db2.findPharmacy r.pharmacy_id = some p1 ∧
          p1.cash_balance - p0.cash_balance = t.total_amount) ∧
      (∀ m0, db.findMask r.mask_id = some m0 →
        ∃ m1, db2.findMask r.mask_id = some m1 ∧
          m0.stock_quantity - m1.stock_quantity = t.quantity)) ∧
    (∀ resp, (create_multi_pharmacy_transaction db rm o now).result = .ok resp →
      resp.total_amount = recGrandTotal resp.transactions ∧
      (∀ u0, db.findUser rm.user_id = some u0 →
        ∃ u1, (create_multi_pharmacy_transaction db rm o now).post.findUser rm.user_id =
            some u1 ∧
          u0.cash_balance - u1.cash_balance = resp.total_amount) ∧
      (∀ pid p0, db.findPharmacy pid = some p0 →
        ∃ p1, (create_multi_pharmacy_transaction db rm o now).post.findPharmacy pid =
            some p1 ∧
          p1.cash_balance - p0.cash_balance = recTotalFor resp.transactions pid) ∧
      (∀ mid m0, db.findMask mid = some m0 →
        ∃ m1, (create_multi_pharmacy_transaction db rm o now).post.findMask mid =
            some m1 ∧
          m0.stock_quantity - m1.stock_quantity = recQtyFor resp.transactions mid)) := by
  constructor
  · intro db2 t h
    obtain ⟨-, user_locked, mask_locked, pharmacy_locked, hu, hm, hp, -, -,
      ht, -, hmask, huser, hpharm, -, -, -, -⟩ := create_single_ok db r o now db2 t h
    refine ⟨?_, ?_, ?_⟩
    · intro u0 hu0
      have hid : u0.id = r.user_id := findUser_some_id db r.user_id u0 hu0
      refine ⟨_, by rw [huser r.user_id, hu0, Option.map_some', if_pos hid], ?_⟩
      rw [ht]
      dsimp only
      ring
    · intro p0 hp0
      have hid : p0.id = r.pharmacy_id := findPharmacy_some_id db r.pharmacy_id p0 hp0
      refine ⟨_, by rw [hpharm r.pharmacy_id, hp0, Option.map_some', if_pos hid], ?_⟩
      rw [ht]
      dsimp only
      ring
    · intro m0 hm0
      have hid : m0.id = r.mask_id := findMask_some_id db r.mask_id m0 hm0
      refine ⟨_, by rw [hmask r.mask_id, hm0, Option.map_some', if_pos hid], ?_⟩
      rw [ht]
      dsimp only
      ring
  · intro resp h
    obtain ⟨-, user_obj, vitems, user_locked, db3, locks1, hva, hu, -, hloop,
      -, htot, -, -, -, hpost, -⟩ := create_multi_ok db rm o now resp h
    obtain ⟨-, husers, -, -, hts, hstock, hcredit⟩ :=
      multiLoop_ok rm.user_id now vitems db locks1 db3 resp.transactions hloop
    have hgrand : recGrandTotal resp.transactions = (vitems.map Prod.snd).sum := by
      rw [hts]
      exact recGrandTotal_recordOf db rm.user_id now vitems
    refine ⟨by rw [htot, hgrand], ?_, ?_, ?_⟩
    · intro u0 hu0
      have hid : u0.id = rm.user_id := findUser_some_id db rm.user_id u0 hu0
      have hu3 : db3.findUser rm.user_id = some user_locked := by
        unfold DB.findUser
        rw [husers]
        exact hu
      have hwrite := findUser_balanceWrite db3 rm.user_id user_locked
        ((vitems.map Prod.snd).sum) hu3 rm.user_id
      have hbase : db3.findUser rm.user_id = db.findUser rm.user_id := by
        unfold DB.findUser
        rw [husers]
      refine ⟨_, by rw [hpost, hwrite, hbase, hu0, Option.map_some', if_pos hid], ?_⟩
      rw [htot]
      dsimp only
      ring
    · intro pid p0 hp0
      have hph : (create_multi_pharmacy_transaction db rm o now).post.findPharmacy pid =
          db3.findPharmacy pid := by
        rw [hpost]
        rfl
      refine ⟨_, by rw [hph, hcredit pid, hp0, Option.map_some'], ?_⟩
      have hrt : recTotalFor resp.transactions pid = sumCreditFor vitems pid := by
        rw [hts]
        exact recTotalFor_recordOf db rm.user_id now pid vitems
      rw [hrt]
      dsimp only
      ring
    · intro mid m0 hm0
      have hmm : (create_multi_pharmacy_transaction db rm o now).post.findMask mid =
          db3.findMask mid := by
        rw [hpost]
        rfl
      refine ⟨_, by rw [hmm, hstock mid, hm0, Option.map_some'], ?_⟩
      have hrq : recQtyFor resp.transactions mid = sumQtyFor vitems mid := by
        rw [hts]
        exact recQtyFor_recordOf db rm.user_id now mid vitems
      rw [hrq]
      dsimp only
      ring

/-- Witness for C6 at concrete inputs: the single purchase (2 of mask 1) and
the two-item multi purchase on the fixture store. -/
theorem C6_conservation_witness :
    (∀ db2 t, create_single_transaction dbW
        { user_id := 1, pharmacy_id := 1, mask_id := 1, quantity := 2 } none 0 =
        (db2, .ok t) →
      (∀ u0, dbW.findUser 1 = some u0 →
        ∃ u1, db2.findUser 1 = some u1 ∧
          u0.cash_balance - u1.cash_balance = t.total_amount) ∧
      (∀ p0, dbW.findPharmacy 1 = some p0 →
        ∃ p1, db2.findPharmacy 1 = some p1 ∧
          p1.cash_balance - p0.cash_balance = t.total_amount) ∧
      (∀ m0, dbW.findMask 1 = some m0 →
        ∃ m1, db2.findMask 1 = some m1 ∧
          m0.stock_quantity - m1.stock_quantity = t.quantity)) ∧
    (∀ resp, (create_multi_pharmacy_transaction dbW reqW none 0).result = .ok resp →
      resp.total_amount = recGrandTotal resp.transactions ∧
      (∀ u0, dbW.findUser reqW.user_id = some u0 →
        ∃ u1, (create_multi_pharmacy_transaction dbW reqW none 0).post.findUser
            reqW.user_id = some u1 ∧
          u0.cash_balance - u1.cash_balance = resp.total_amount) ∧
      (∀ pid p0, dbW.findPharmacy pid = some p0 →
        ∃ p1, (create_multi_pharmacy_transaction dbW reqW none 0).post.findPharmacy pid =
            some p1 ∧
          p1.cash_balance - p0.cash_balance = recTotalFor resp.transactions pid) ∧
      (∀ mid m0, dbW.findMask mid = some m0 →
        ∃ m1, (create_multi_pharmacy_transaction dbW reqW none 0).post.findMask mid =
            some m1 ∧
          m0.stock_quantity - m1.stock_quantity = recQtyFor resp.transactions mid)) :=
  C6_conservation dbW
    { user_id := 1, pharmacy_id := 1, mask_id := 1, quantity := 2 } reqW none 0

/-- C3: across any sequence of purchase and stock-adjustment operations whose
requests satisfy the schema bounds, no stock quantity and no cash balance is
ever negative in any post-operation store (locks serialize the operations, so
these are the externally observable instants); and a stock adjustment that
would drive the quantity negative (stock 5, change -8) fails with the
insufficient-stock error and leaves the store unchanged. -/
theorem C3_nonnegativity (db : DB) (ops : List EngineOp)
    (hops : ∀ op ∈ ops, op.WF) (hnn : db.NonNegative) (hpr : db.PricesNonNeg) :
    (applyOps db ops).NonNegative ∧
    (∀ (db2 : DB) (mid : Nat) (m : Mask) (r : StockUpdateRequest)
        (o : Option StoreError),
      db2.findMask mid = some m → m.stock_quantity = 5 → r.quantity_change = -8 →
      update_stock db2 mid r o = (db2, .error (.insufficientStockAdjust 5 8))) := by
  constructor
  · exact (applyOps_preserves_inv ops db hops hnn hpr).1
  · intro db2 mid m r o hf h5 h8
    unfold update_stock
    rw [hf]
    dsimp only
    rw [h5, h8]
    rw [if_pos (by norm_num)]
    norm_num

/-- Witness for C3: a sequence of all three operation kinds on the fixture
store ends non-negative, and the concrete 5 minus 8 adjustment on mask 3 of
the fixture store is rejected unchanged. -/
theorem C3_nonnegativity_witness :
    ((applyOps dbW
      [.purchaseSingle { user_id := 1, pharmacy_id := 1, mask_id := 1, quantity := 2 } none 0,
       .purchaseMulti reqW none 0,
       .stockAdjust 3 { quantity_change := -5 } none]).NonNegative ∧
    (∀ (db2 : DB) (mid : Nat) (m : Mask) (r : StockUpdateRequest)
        (o : Option StoreError),
      db2.findMask mid = some m → m.stock_quantity = 5 → r.quantity_change = -8 →
      update_stock db2 mid r o = (db2, .error (.insufficientStockAdjust 5 8)))) ∧
    update_stock dbW 3 { quantity_change := -8 } none =
      (dbW, .error (.insufficientStockAdjust 5 8)) := by
  have h := C3_nonnegativity dbW
    [.purchaseSingle { user_id := 1, pharmacy_id := 1, mask_id := 1, quantity := 2 } none 0,
     .purchaseMulti reqW none 0,
     .stockAdjust 3 { quantity_change := -5 } none]
    (by intro op hop; fin_cases hop <;> constructor <;> decide)
    (by decide) (by decide)
  exact ⟨h, h.2 dbW 3 (⟨3, "C", 2, 5, 1⟩ : Mask)
    { quantity_change := -8 } none (by decide) rfl rfl⟩

/-! Error provenance lemmas for the conflict classifier claims. -/

theorem validate_error_not_conflict (db : DB) (uid pid mid : Nat) (q : ℤ) (e : ApiError)
    (h : validate_transaction_item db uid pid mid q = .error e) : e ≠ .conflict := by
  unfold validate_transaction_item at h
  cases hu : db.findUser uid with
  | none =>
    rw [hu] at h
    cases h
    intro hc
    cases hc
  | some u =>
    rw [hu] at h
    cases hp : db.findPharmacy pid with
    | none =>
      rw [hp] at h
      cases h
      intro hc
      cases hc
    | some p =>
      rw [hp] at h
      cases hm : db.findMaskOfPharmacy mid pid with
      | none =>
        rw [hm] at h
        cases h
        intro hc
        cases hc
      | some m =>
        rw [hm] at h
        dsimp only at h
        by_cases hs : m.stock_quantity < q
        · rw [if_pos hs] at h
          cases h
          intro hc
          cases hc
        · rw [if_neg hs] at h
          by_cases hb : u.cash_balance < m.price * q
          · rw [if_pos hb] at h
            cases h
            intro hc
            cases hc
          · rw [if_neg hb] at h
            cases h

theorem validateAllItems_error_not_conflict (db : DB) (uid : Nat) :
    ∀ (items : List MultiPharmacyTransactionItem) (e : ApiError),
      validateAllItems db uid items = .error e → e ≠ .conflict := by
  intro items
  induction items with
  | nil =>
    intro e h
    unfold validateAllItems at h
    cases h
  | cons it rest ih =>
    intro e h
    unfold validateAllItems at h
    cases hv : validate_transaction_item db uid it.pharmacy_id it.mask_id it.quantity with
    | error e2 =>
      rw [hv] at h
      cases h
      exact validate_error_not_conflict db uid it.pharmacy_id it.mask_id it.quantity _ hv
    | ok quad =>
      rw [hv] at h
      obtain ⟨u2, p2, m2, t2⟩ := quad
      dsimp only at h
      cases hrec : validateAllItems db uid rest with
      | error e2 =>
        rw [hrec] at h
        cases h
        exact ih _ hrec
      | ok pair =>
        rw [hrec] at h
        obtain ⟨uo, vr⟩ := pair
        cases h

theorem multiLoop_error_not_conflict (uid now : Nat) :
    ∀ (vitems : List (MultiPharmacyTransactionItem × ℤ)) (db : DB)
      (locks : List LockKey) (e : ApiError),
      multiLoop db uid now vitems = (locks, .error e) → e ≠ .conflict := by
  intro vitems
  induction vitems with
  | nil =>
    intro db locks e h
    unfold multiLoop at h
    cases h
  | cons v rest ih =>
    intro db locks e h
    obtain ⟨it, tot⟩ := v
    unfold multiLoop at h
    cases hfind : db.findMask it.mask_id with
    | none =>
      rw [hfind] at h
      cases h
      intro hc
      cases hc
    | some mask_locked =>
      rw [hfind] at h
      dsimp only at h
      by_cases hs : mask_locked.stock_quantity < it.quantity
      · rw [if_pos hs] at h
        cases h
        intro hc
        cases hc
      · rw [if_neg hs] at h
        cases hrec : multiLoop (applyMultiItem db uid now it tot mask_locked)
            uid now rest with
        | mk locks1 res1 =>
          rw [hrec] at h
          cases res1 with
          | error e2 =>
            cases h
            exact ih _ _ _ hrec
          | ok pair2 =>
            obtain ⟨dbEnd, ts⟩ := pair2
            cases h

theorem classify_conflict_iff (se : StoreError) :
    classify_store_error se = .conflict ↔
      ∃ msg, se = .operational msg ∧
        containsSubstring ("deadlock") (lowerString msg) = true := by
  cases se with
  | operational msg =>
    unfold classify_store_error
    dsimp only
    by_cases hdl : containsSubstring ("deadlock") (lowerString msg) = true
    · rw [if_pos hdl]
      exact ⟨fun _ => ⟨msg, rfl, hdl⟩, fun _ => rfl⟩
    · rw [if_neg hdl]
      constructor
      · intro hc
        cases hc
      · rintro ⟨msg2, hmsg, hdl2⟩
        cases hmsg
        exact absurd hdl2 hdl
  | otherStoreFailure msg =>
    unfold classify_store_error
    dsimp only
    constructor
    · intro hc
      cases hc
    · rintro ⟨msg2, hmsg, -⟩
      cases hmsg

theorem create_single_conflict_source (db : DB) (r : TransactionCreate)
    (o : Option StoreError) (now : Nat)
    (h : (create_single_transaction db r o now).2 = .error .conflict) :
    ∃ msg, o = some (.operational msg) ∧
      containsSubstring ("deadlock") (lowerString msg) = true := by
  unfold create_single_transaction at h
  cases hv : validate_transaction_item db r.user_id r.pharmacy_id r.mask_id r.quantity with
  | error e =>
    rw [hv] at h
    cases h
    exact absurd rfl (validate_error_not_conflict db r.user_id r.pharmacy_id
      r.mask_id r.quantity _ hv)
  | ok v =>
    rw [hv] at h
    dsimp only at h
    cases hu : db.findUser r.user_id with
    | none =>
      rw [hu] at h
      cases hm : db.findMask r.mask_id with
      | none => rw [hm] at h; cases h
      | some mask_locked =>
        rw [hm] at h
        cases hp : db.findPharmacy r.pharmacy_id with
        | none => rw [hp] at h; cases h
        | some pharmacy_locked => rw [hp] at h; cases h
    | some user_locked =>
      rw [hu] at h
      cases hm : db.findMask r.mask_id with
      | none =>
        rw [hm] at h
        cases hp : db.findPharmacy r.pharmacy_id with
        | none => rw [hp] at h; cases h
        | some pharmacy_locked => rw [hp] at h; cases h
      | some mask_locked =>
        rw [hm] at h
        cases hp : db.findPharmacy r.pharmacy_id with
        | none => rw [hp] at h; cases h
        | some pharmacy_locked =>
          rw [hp] at h
          dsimp only at h
          by_cases hs : mask_locked.stock_quantity < r.quantity
          · rw [if_pos hs] at h
            cases h
          · rw [if_neg hs] at h
            by_cases hb : user_locked.cash_balance < mask_locked.price * r.quantity
            · rw [if_pos hb] at h
              cases h
            · rw [if_neg hb] at h
              cases o with
              | some se =>
                dsimp only at h
                have : classify_store_error se = .conflict := by
                  cases h2 : classify_store_error se
                  all_goals first
                    | rfl
                    | (rw [h2] at h; cases h)
                exact (by
                  obtain ⟨msg, hmsg, hdl⟩ := (classify_conflict_iff se).mp this
                  exact ⟨msg, by rw [hmsg], hdl⟩)
              | none => cases h

theorem create_multi_conflict_source (db : DB) (r : MultiPharmacyTransactionCreate)
    (o : Option StoreError) (now : Nat)
    (h : (create_multi_pharmacy_transaction db r o now).result = .error .conflict) :
    ∃ msg, o = some (.operational msg) ∧
      containsSubstring ("deadlock") (lowerString msg) = true := by
  unfold create_multi_pharmacy_transaction at h
  cases hva : validateAllItems db r.user_id r.items with
  | error e =>
    rw [hva] at h
    dsimp only at h
    cases h
    exact absurd rfl (validateAllItems_error_not_conflict db r.user_id r.items _ hva)
  | ok pair =>
    rw [hva] at h
    obtain ⟨uo, vitems⟩ := pair
    dsimp only at h
    cases uo with
    | none => cases h
    | some user_obj =>
      dsimp only at h
      by_cases h2 : user_obj.cash_balance < (vitems.map Prod.snd).sum
      · rw [if_pos h2] at h
        cases h
      · rw [if_neg h2] at h
        cases hu : db.findUser r.user_id with
        | none =>
          rw [hu] at h
          cases h
        | some user_locked =>
          rw [hu] at h
          dsimp only at h
          by_cases h3 : user_locked.cash_balance < (vitems.map Prod.snd).sum
          · rw [if_pos h3] at h
            cases h
          · rw [if_neg h3] at h
            cases hloop : multiLoop db r.user_id now vitems with
            | mk locks1 res1 =>
              rw [hloop] at h
              cases res1 with
              | error e =>
                dsimp only at h
                cases h
                exact absurd rfl (multiLoop_error_not_conflict r.user_id now
                  vitems db locks1 _ hloop)
              | ok pair2 =>
                obtain ⟨db3, ts⟩ := pair2
                dsimp only at h
                cases o with
                | some se =>
                  dsimp only at h
                  have : classify_store_error se = .conflict := by
                    cases h4 : classify_store_error se
                    all_goals first
                      | rfl
                      | (rw [h4] at h; cases h)
                  obtain ⟨msg, hmsg, hdl⟩ := (classify_conflict_iff se).mp this
                  exact ⟨msg, by rw [hmsg], hdl⟩
                | none => cases h

/-- The driver text MySQL and PostgreSQL style stores report for a lock-wait
timeout; it does not contain the word deadlock. -/
def lockTimeoutMsg : String :=
  "Lock wait timeout exceeded; try restarting transaction"

/-- C4 counterexample: a store-reported lock-wait timeout during the commit
of an otherwise valid purchase is classified as the 500 internal error, not
as the 409 retryable conflict the claim requires for lock-wait timeouts. -/
theorem C4_lock_timeout_counterexample :
    (create_single_transaction dbW
      { user_id := 1, pharmacy_id := 1, mask_id := 1, quantity := 2 }
      (some (.operational lockTimeoutMsg)) 0).2 = .error .internalStoreError ∧
    ApiError.status .internalStoreError = 500 ∧
    ApiError.status .conflict = 409 ∧
    (create_single_transaction dbW
      { user_id := 1, pharmacy_id := 1, mask_id := 1, quantity := 2 }
      (some (.operational lockTimeoutMsg)) 0).2 ≠ .error .conflict := by
  decide

/-- C4 as amended: a store failure is classified as the retryable 409
conflict exactly when it is an OperationalError whose lowercased text
contains the substring deadlock; every other store failure — lock-wait
timeouts included — is classified as the 500 internal error; and a purchase
returns the conflict error only out of such a deadlock-texted store failure,
so business-rule failures are never reclassified as conflicts. -/
theorem C4_deadlock_text_classification :
    (∀ se, classify_store_error se = .conflict ↔
      ∃ msg, se = .operational msg ∧
        containsSubstring ("deadlock") (lowerString msg) = true) ∧
    (∀ se, classify_store_error se = .conflict ∨
      classify_store_error se = .internalStoreError) ∧
    (∀ (db : DB) (r : TransactionCreate) (o : Option StoreError) (now : Nat),
      (create_single_transaction db r o now).2 = .error .conflict →
      ∃ msg, o = some (.operational msg) ∧
        containsSubstring ("deadlock") (lowerString msg) = true) ∧
    (∀ (db : DB) (r : MultiPharmacyTransactionCreate) (o : Option StoreError)
        (now : Nat),
      (create_multi_pharmacy_transaction db r o now).result = .error .conflict →
      ∃ msg, o = some (.operational msg) ∧
        containsSubstring ("deadlock") (lowerString msg) = true) := by
  refine ⟨classify_conflict_iff, ?_, ?_, ?_⟩
  · intro se
    cases se with
    | operational msg =>
      unfold classify_store_error
      dsimp only
      by_cases hdl : containsSubstring ("deadlock") (lowerString msg) = true
      · rw [if_pos hdl]
        exact Or.inl rfl
      · rw [if_neg hdl]
        exact Or.inr rfl
    | otherStoreFailure msg => exact Or.inr rfl
  · intro db r o now h
    exact create_single_conflict_source db r o now h
  · intro db r o now h
    exact create_multi_conflict_source db r o now h

/-- Witness for C4's amended theorem: a concrete deadlock-texted commit
failure of a valid purchase yields the conflict classification, and the
implication recovers the deadlock text. -/
theorem C4_deadlock_text_classification_witness :
    ∃ msg, (some (StoreError.operational ("deadlock detected")) : Option StoreError) =
        some (.operational msg) ∧
      containsSubstring ("deadlock") (lowerString msg) = true :=
  C4_deadlock_text_classification.2.2.1 dbW
    { user_id := 1, pharmacy_id := 1, mask_id := 1, quantity := 2 }
    (some (.operational ("deadlock detected"))) 0 (by decide)

/-- Two-item request on pharmacy 1 whose mask ids are in descending order. -/
def reqC5 : MultiPharmacyTransactionCreate :=
  { user_id := 1, items := [{ pharmacy_id := 1, mask_id := 3, quantity := 1 },
                            { pharmacy_id := 1, mask_id := 1, quantity := 1 }] }

/-- C5 counterexample: a successful multi purchase whose items name masks 3
then 1 locks the user and then the masks in request order 3, 1 — not in
ascending key order — and never locks the owning pharmacy's row. -/
theorem C5_lock_order_counterexample :
    (create_multi_pharmacy_transaction dbW reqC5 none 0).result.isOk = true ∧
    (create_multi_pharmacy_transaction dbW reqC5 none 0).locks =
      [.userLock 1, .maskLock 3, .maskLock 1] ∧
    LockKey.pharmacyLock 1 ∉ (create_multi_pharmacy_transaction dbW reqC5 none 0).locks ∧
    ¬ List.Sorted (· ≤ ·) [3, 1] := by
  decide

/-- C5 as amended: on a successful multi purchase the buyer's row is locked
first and exactly once, then each item's mask row is locked in the order the
items appear in the request (duplicates re-locked, no reordering), and the
owning pharmacies' rows are never locked. -/
theorem C5_lock_order_amended (db : DB) (r : MultiPharmacyTransactionCreate)
    (o : Option StoreError) (now : Nat) (resp : MultiPharmacyTransactionResponse)
    (h : (create_multi_pharmacy_transaction db r o now).result = .ok resp) :
    (create_multi_pharmacy_transaction db r o now).locks =
      .userLock r.user_id :: r.items.map (fun it => .maskLock it.mask_id) ∧
    ∀ pid, LockKey.pharmacyLock pid ∉
      (create_multi_pharmacy_transaction db r o now).locks := by
  obtain ⟨-, user_obj, vitems, user_locked, db3, locks1, hva, -, -, hloop,
    -, -, -, -, -, -, hlk⟩ := create_multi_ok db r o now resp h
  obtain ⟨hlocks, -, -, -, -, -, -⟩ :=
    multiLoop_ok r.user_id now vitems db locks1 db3 resp.transactions hloop
  obtain ⟨hfst, -, -, -⟩ := validateAllItems_ok db r.user_id r.items _ _ hva
  have hseq : (create_multi_pharmacy_transaction db r o now).locks =
      .userLock r.user_id :: r.items.map (fun it => .maskLock it.mask_id) := by
    rw [hlk, hlocks, ← hfst, List.map_map]
    rfl
  refine ⟨hseq, ?_⟩
  intro pid
  rw [hseq]
  intro hmem
  cases hmem with
  | tail _ hmem2 =>
    obtain ⟨it, -, hit⟩ := List.mem_map.mp hmem2
    cases hit

/-- Witness for C5's amended theorem at the concrete two-item request. -/
theorem C5_lock_order_amended_witness :
    (create_multi_pharmacy_transaction dbW reqW none 0).locks =
      .userLock reqW.user_id :: reqW.items.map (fun it => .maskLock it.mask_id) ∧
    ∀ pid, LockKey.pharmacyLock pid ∉
      (create_multi_pharmacy_transaction dbW reqW none 0).locks :=
  C5_lock_order_amended dbW reqW none 0
    { user_id := 1, total_amount := 11, total_items := 2,
      transactions :=
        [{ user_id := 1, pharmacy_id := 1, mask_id := 1, quantity := 1,
           unit_price := 5, total_amount := 5, transaction_datetime := 0 },
         { user_id := 1, pharmacy_id := 2, mask_id := 2, quantity := 2,
           unit_price := 3, total_amount := 6, transaction_datetime := 0 }],
      success_count := 2, failed_items := [] }
    (by decide)

/-- Store for the C9 failing input: pharmacy 1 holds masks named X and Y. -/
def dbC9 : DB :=
  { users := [], pharmacies := [{ id := 1, name := "p", cash_balance := 0 }],
    masks := [{ id := 1, name := "X", price := 1, stock_quantity := 0, pharmacy_id := 1 },
              { id := 2, name := "Y", price := 1, stock_quantity := 0, pharmacy_id := 1 }],
    transactions := [], nextMaskId := 3 }

/-- Batch request renaming mask 2 of pharmacy 1 to X, the name mask 1 already
carries. -/
def reqC9 : BatchMaskRequest :=
  { pharmacy_id := 1,
    masks := [{ name := "X", price := 1, stock_quantity := 0, mask_id := some 2 }] }

/-- C9 failing input, evaluated: the batch update path renames mask 2 to X
without any uniqueness check and commits, so a store whose mask names were
unique per pharmacy ends with two masks named X in pharmacy 1. -/
theorem C9_update_rename_breaks_uniqueness :
    dbC9.MaskNamesUniquePerPharmacy ∧
    (batch_manage_masks dbC9 reqC9 none).2.isOk = true ∧
    ¬ (batch_manage_masks dbC9 reqC9 none).1.MaskNamesUniquePerPharmacy := by
  decide

/-- C10: unlike the all-or-nothing purchase path, the batch call permits
partial success: when the pharmacy exists, both create-name checks pass, no
update item targets an id the autoincrement column hands out during the call,
and the update targets are pairwise distinct, the call commits with update
items whose (id, pharmacy) lookup fails skipped and reported in failed_items,
while every resolvable update is applied to its row and every create item's
row is present in the committed store. -/
theorem C10_batch_partial_success (db : DB) (r : BatchMaskRequest)
    (pharmacy : Pharmacy) (hwf : db.WF)
    (hph : db.findPharmacy r.pharmacy_id = some pharmacy)
    (hdup : ((createNamesOf r).dedup.length != (createNamesOf r).length) = false)
    (hex : (db.masks.any (fun m => m.pharmacy_id == r.pharmacy_id &&
      (createNamesOf r).dedup.contains m.name)) = false)
    (hids : BatchIdsWF db r.masks)
    (hnodup : (updateTargets r.masks).Nodup) :
    ∃ resp : BatchMaskResponse,
      (batch_manage_masks db r none).2 = .ok resp ∧
      resp.failed_items = batchFailedOf db r.pharmacy_id r.masks ∧
      resp.created_count = createCountOf r.masks ∧
      resp.updated_count = updatedCountOf db r.pharmacy_id r.masks ∧
      (∀ it ∈ r.masks, it.isCreate = false → ∀ mid, it.mask_id = some mid →
        db.findMaskOfPharmacy mid r.pharmacy_id = none →
        (batch_manage_masks db r none).1.findMaskOfPharmacy mid r.pharmacy_id = none) ∧
      (∀ it ∈ r.masks, it.isCreate = false → ∀ mid, it.mask_id = some mid →
        ∀ m0, db.findMaskOfPharmacy mid r.pharmacy_id = some m0 →
        (batch_manage_masks db r none).1.findMask mid =
          some { m0 with name := it.name, price := it.price,
                         stock_quantity := it.stock_quantity }) ∧
      (∀ it ∈ r.masks, it.isCreate = true →
        ∃ m ∈ (batch_manage_masks db r none).1.masks,
          m.pharmacy_id = r.pharmacy_id ∧ m.name = it.name ∧
          m.price = it.price ∧ m.stock_quantity = it.stock_quantity) := by
  have hcall := batch_manage_masks_ok db r pharmacy hph hdup hex
  have hpost : (batch_manage_masks db r none).1 =
      (batchLoop r.pharmacy_id db r.masks).1 := by
    rw [hcall]
  obtain ⟨hnext, -, -, -, hstab, hfail, hcc, huc, -⟩ :=
    batchLoop_spec r.pharmacy_id r.masks db hids
  refine ⟨{ pharmacy_id := r.pharmacy_id, pharmacy_name := pharmacy.name,
            total_items := r.masks.length,
            created_count := (batchLoop r.pharmacy_id db r.masks).2.1,
            updated_count := (batchLoop r.pharmacy_id db r.masks).2.2.1,
            failed_items := (batchLoop r.pharmacy_id db r.masks).2.2.2 },
          by rw [hcall], hfail, hcc, huc, ?_, ?_, ?_⟩
  · intro it hit hcF mid hmid hnone
    have hiso := hstab mid r.pharmacy_id (hids it hit mid hmid hcF)
    rw [hpost]
    rw [hnone] at hiso
    cases hfin : (batchLoop r.pharmacy_id db r.masks).1.findMaskOfPharmacy
        mid r.pharmacy_id with
    | none => rfl
    | some m =>
      rw [hfin] at hiso
      simp at hiso
  · intro it hit hcF mid hmid m0 hfound
    rw [hpost]
    exact batchLoop_update_applied r.pharmacy_id r.masks db hwf hnodup
      it hit hcF mid hmid m0 hfound
  · intro it hit hcT
    rw [hpost]
    exact batchLoop_create_applied r.pharmacy_id r.masks db hids it hit hcT

/-- Batch request against the witness store mixing a resolvable update of
mask 3, a create, and an update whose mask id 9 exists nowhere. -/
def reqC10 : BatchMaskRequest :=
  { pharmacy_id := 1,
    masks := [{ name := "C2", price := 7, stock_quantity := 1, mask_id := some 3 },
              { name := "D", price := 1, stock_quantity := 2, mask_id := none },
              { name := "E", price := 4, stock_quantity := 6, mask_id := some 9 }] }

theorem C10_batch_partial_success_witness :
    ∃ resp : BatchMaskResponse,
      (batch_manage_masks dbW reqC10 none).2 = .ok resp ∧
      resp.failed_items = batchFailedOf dbW reqC10.pharmacy_id reqC10.masks ∧
      resp.created_count = createCountOf reqC10.masks ∧
      resp.updated_count = updatedCountOf dbW reqC10.pharmacy_id reqC10.masks ∧
      (∀ it ∈ reqC10.masks, it.isCreate = false → ∀ mid, it.mask_id = some mid →
        dbW.findMaskOfPharmacy mid reqC10.pharmacy_id = none →
        (batch_manage_masks dbW reqC10 none).1.findMaskOfPharmacy
          mid reqC10.pharmacy_id = none) ∧
      (∀ it ∈ reqC10.masks, it.isCreate = false → ∀ mid, it.mask_id = some mid →
        ∀ m0, dbW.findMaskOfPharmacy mid reqC10.pharmacy_id = some m0 →
        (batch_manage_masks dbW reqC10 none).1.findMask mid =
          some { m0 with name := it.name, price := it.price,
                         stock_quantity := it.stock_quantity }) ∧
      (∀ it ∈ reqC10.masks, it.isCreate = true →
        ∃ m ∈ (batch_manage_masks dbW reqC10 none).1.masks,
          m.pharmacy_id = reqC10.pharmacy_id ∧ m.name = it.name ∧
          m.price = it.price ∧ m.stock_quantity = it.stock_quantity) :=
  C10_batch_partial_success dbW reqC10 { id := 1, name := "p", cash_balance := 50 }
    (by decide) (by decide) (by decide) (by decide)
    (by
      intro it hit mid hmid hcr
      show mid < 4 ∨ 5 ≤ mid
      cases hit with
      | head =>
        have h3 : some 3 = some mid := hmid
        injection h3 with h
        subst h
        decide
      | tail _ h2 =>
        cases h2 with
        | head =>
          have h0 : (none : Option Nat) = some mid := hmid
          exact Option.noConfusion h0
        | tail _ h3 =>
          cases h3 with
          | head =>
            have h9 : some 9 = some mid := hmid
            injection h9 with h
            subst h
            decide
          | tail _ h4 => cases h4)
    (by decide)

end PhantomMask
